import Mathlib

/-!
# EtherCAT bus master (`EthercatInterface.cpp`): embedding and properties

The C++ class `EthercatInterface` drives the SOEM master library.  The
embedding below passes the state explicitly:

* `State` holds the members of the class, the SOEM globals the class reads
  and writes (`ec_slavecount`, `ec_slave[]`, `ec_group[0]`), whether the
  network handle is open, and the trace of library calls issued so far;
* `Bus` holds the answers of the SOEM library and of the physical bus
  (return values of `ec_init`, `ec_config_init`, the states found by
  `ec_statecheck`, ...).  Every theorem quantifies over all such answers.

Machine integers are `Nat`/`Int`; the only conversion that can change a value
(`(unsigned int) ec_slavecount`) is modelled by `toUInt`.  Log output (the
`log(..)` statements, the diagnostic loop of lines 179-191 and the error
printing of line 329) changes no state and is left out.  A library call on one
slave changes the entry of that slave in `ec_slave[]` only.
-/

namespace platform_driver_ethercat

/-! ## SOEM constants (`ethercattype.h`) -/

def EC_STATE_NONE : Nat := 0
def EC_STATE_INIT : Nat := 1
def EC_STATE_PRE_OP : Nat := 2
def EC_STATE_BOOT : Nat := 3
def EC_STATE_SAFE_OP : Nat := 4
def EC_STATE_OPERATIONAL : Nat := 8
def EC_STATE_ACK : Nat := 16
def EC_STATE_ERROR : Nat := 16
def ECT_COEDET_SDOCA : Nat := 32
def EC_TIMEOUTRET : Nat := 2000
def EC_TIMEOUTSTATE : Nat := 2000000

/-- Line 13: `const int EC_TIMEOUTMON = 500;` -/
def EC_TIMEOUTMON : Nat := 500

/-- The conversion `(unsigned int) x` of a C `int` (32 bit). -/
def toUInt (x : Int) : Nat := (x % 4294967296).toNat

/-! ## Data -/

/-- The fields of SOEM's `ec_slavet` that the class touches. -/
structure ec_slavet where
  /-- The `uint16 state`. -/
  state : Nat
  /-- The `uint8 group`. -/
  group : Nat
  /-- The `boolean islost`. -/
  islost : Bool
  /-- The `uint8 CoEdetails`. -/
  CoEdetails : Nat
deriving DecidableEq, Repr

/-- A registered device (`std::shared_ptr<CanDevice>`): the result of
`getSlaveId()` and a handle telling device objects apart. -/
structure CanDevice where
  slave_id : Nat
  handle : Nat
deriving DecidableEq, Repr

/-- One call into the SOEM library, into a device, or the start of the cyclic
thread, as it appears in the trace.  `ec_writestate slave s` records the state
`s` stored in `ec_slave[slave].state` when the request is written;
`configure id ok` records the outcome of the device's `configure()`. -/
inductive Call where
  | ec_init
  | ec_config_init
  | configure (slave_id : Nat) (ok : Bool)
  | ec_config_map
  | ec_configdc
  | setInputPdo (slave_id : Nat)
  | setOutputPdo (slave_id : Nat)
  | ec_statecheck (slave : Nat) (reqstate : Nat) (timeout : Nat)
  | ec_send_processdata
  | ec_receive_processdata
  | ec_writestate (slave : Nat) (state : Nat)
  | ec_readstate
  | ec_reconfig_slave (slave : Nat) (timeout : Nat)
  | ec_recover_slave (slave : Nat) (timeout : Nat)
  | ec_close
  | thread_start
  | osal_usleep (usec : Nat)
deriving DecidableEq, Repr

/-- The answers of the SOEM library and of the bus. -/
structure Bus where
  /-- Whether `ec_init(ifname)` returns non-zero. -/
  ec_init : Bool
  /-- The return value of `ec_config_init(FALSE)`: the number of slaves found. -/
  ec_config_init : Int
  /-- The slave table as `ec_config_init` fills it. -/
  config_slave : Nat → ec_slavet
  /-- The outcome of `configure()` of the device registered at a slave id. -/
  configure : Nat → Bool
  /-- The value of `ec_group[0].outputsWKC` after `ec_config_map`. -/
  map_outputsWKC : Nat
  /-- The value of `ec_group[0].inputsWKC` after `ec_config_map`. -/
  map_inputsWKC : Nat
  /-- The value of `ec_slave[0].state` after `ec_statecheck(0, EC_STATE_SAFE_OP, ..)`. -/
  safeop_state : Nat
  /-- The value of `ec_slave[0].state` after the `k`-th (from 0)
  `ec_statecheck(0, EC_STATE_OPERATIONAL, 50000)` of the wait loop. -/
  op_statecheck : Nat → Nat
  /-- The return value of `ec_receive_processdata` in the cyclic loop. -/
  receive_wkc : Int
  /-- The state of each slave as `ec_readstate` reads it. -/
  readstate : Nat → Nat
  /-- The return value of `ec_reconfig_slave(slave, ..)` and the slave state it leaves. -/
  ec_reconfig_slave : Nat → Int × Nat
  /-- The slave state after `ec_statecheck(slave, EC_STATE_OPERATIONAL, EC_TIMEOUTRET)`. -/
  ec_statecheck : Nat → Nat
  /-- The return value of `ec_recover_slave(slave, ..)`. -/
  ec_recover_slave : Nat → Int
  /-- The work counter returned by `ec_SDOread(slave, idx, sub, ..)` and the
  value left in `*data` (given the value it held before). -/
  ec_SDOread : Nat → Nat → Nat → Int → Int × Int
  /-- The work counter returned by `ec_SDOwrite(slave, idx, sub, FALSE, fieldsize, &data, ..)`. -/
  ec_SDOwrite : Nat → Nat → Nat → Int → Int → Int

/-- The class members, the SOEM globals and the trace. -/
structure State where
  /-- Member `num_slaves_` (`unsigned int`). -/
  num_slaves_ : Nat
  /-- Member `is_initialized_`. -/
  is_initialized_ : Bool
  /-- Member `devices_`: an ordered map from slave id to device, kept as a list
  in increasing key order. -/
  devices_ : List (Nat × CanDevice)
  /-- Whether `ethercat_thread_` holds a started thread.  Nothing in the class
  joins or detaches it and `pdoCycle` never returns, so once started it stays
  joinable. -/
  thread_started : Bool
  /-- Static member `expected_wkc_`. -/
  expected_wkc_ : Int
  /-- Static member `wkc_`. -/
  wkc_ : Int
  /-- Whether the network handle opened by `ec_init` is open. -/
  socket_open : Bool
  /-- SOEM global `ec_slavecount`. -/
  ec_slavecount : Int
  /-- SOEM global `ec_slave[]`. -/
  ec_slave : Nat → ec_slavet
  /-- SOEM global `ec_group[0].outputsWKC`. -/
  outputsWKC : Nat
  /-- SOEM global `ec_group[0].inputsWKC`. -/
  inputsWKC : Nat
  /-- SOEM global `ec_group[0].docheckstate`. -/
  docheckstate : Bool
  /-- The calls issued so far, oldest first. -/
  calls : List Call

/-- Append one call to the trace. -/
def State.call (st : State) (c : Call) : State :=
  { st with calls := st.calls ++ [c] }

/-- The assignment `ec_slave[slave].state = s`. -/
def State.setSlaveState (st : State) (slave : Nat) (s : Nat) : State :=
  { st with ec_slave := Function.update st.ec_slave slave { st.ec_slave slave with state := s } }

/-- The assignment `ec_slave[slave].islost = b`. -/
def State.setSlaveLost (st : State) (slave : Nat) (b : Bool) : State :=
  { st with ec_slave := Function.update st.ec_slave slave { st.ec_slave slave with islost := b } }

/-- The state after construction (lines 18-22) with nothing on the bus yet. -/
def State.fresh (num_slaves : Nat) : State :=
  { num_slaves_ := num_slaves, is_initialized_ := false, devices_ := [],
    thread_started := false, expected_wkc_ := 0, wkc_ := 0, socket_open := false,
    ec_slavecount := 0, ec_slave := fun _ => ⟨0, 0, false, 0⟩,
    outputsWKC := 0, inputsWKC := 0, docheckstate := false, calls := [] }

/-! ## `EthercatInterface` -/

/-- Line 253: `bool EthercatInterface::isInit() { return is_initialized_; }` -/
def isInit (st : State) : Bool := st.is_initialized_

/-- The insertion `std::map::insert`: keeps the keys ordered and leaves the map
as it is when the key is already present. -/
def mapInsert (k : Nat) (d : CanDevice) : List (Nat × CanDevice) → List (Nat × CanDevice)
  | [] => [(k, d)]
  | (k1, d1) :: rest =>
    if k < k1 then (k, d) :: (k1, d1) :: rest
    else if k = k1 then (k1, d1) :: rest
    else (k1, d1) :: mapInsert k d rest

/-- Lines 255-269: `EthercatInterface::addDevice`. -/
def addDevice (device : CanDevice) (st : State) : Bool × State :=
  if isInit st then (false, st)
  else (true, { st with devices_ := mapInsert device.slave_id device st.devices_ })

/-- Lines 229-251: `EthercatInterface::close`. -/
def close (st : State) : State :=
  let st1 :=
    if isInit st then
      { ((st.setSlaveState 0 EC_STATE_INIT).call (Call.ec_writestate 0 EC_STATE_INIT)) with
        is_initialized_ := false }
    else st
  { (st1.call Call.ec_close) with socket_open := false }

/-- Lines 84-102: the loop that configures all devices.  The first component
is `false` when the loop left `init` through the `return false` of line 98. -/
def configureDevices (bus : Bus) : List (Nat × CanDevice) → State → Bool × State
  | [], st => (true, st)
  | (slave_id, _) :: rest, st =>
    if slave_id > toUInt st.ec_slavecount then (false, st)
    else configureDevices bus rest (st.call (Call.configure slave_id (bus.configure slave_id)))

/-- Lines 107-110: `ec_slave[i].CoEdetails &= ~ECT_COEDET_SDOCA` for `i = 1 .. ec_slavecount`. -/
def disableCompleteAccess (st : State) : State :=
  { st with ec_slave := fun i =>
      if 1 ≤ (i : Int) ∧ (i : Int) ≤ st.ec_slavecount then
        { st.ec_slave i with CoEdetails := Nat.land (st.ec_slave i).CoEdetails (255 - ECT_COEDET_SDOCA) }
      else st.ec_slave i }

/-- Lines 116-122: hand the PDO pointers of its slave to every device. -/
def setPdoPointers : List (Nat × CanDevice) → State → State
  | [], st => st
  | (slave_id, _) :: rest, st =>
    setPdoPointers rest ((st.call (Call.setInputPdo slave_id)).call (Call.setOutputPdo slave_id))

/-- Lines 148-150: the body of the wait loop, on its `k`-th pass (from 0). -/
def waitAttempt (bus : Bus) (k : Nat) (st : State) : State :=
  (((st.call Call.ec_send_processdata).call Call.ec_receive_processdata).call
    (Call.ec_statecheck 0 EC_STATE_OPERATIONAL 50000)).setSlaveState 0 (bus.op_statecheck k)

/-- Lines 144-151: the loop `do { .. } while (chk-- && ec_slave[0].state != EC_STATE_OPERATIONAL)`.
The first argument is the value of `chk` when the body is entered, the second
the number of passes already made.  The test reads `chk` before it looks at the
state, and a `chk` of 0 ends the loop. -/
def waitOperational (bus : Bus) : Nat → Nat → State → State
  | 0, k, st => waitAttempt bus k st
  | chk + 1, k, st =>
    if ((waitAttempt bus k st).ec_slave 0).state ≠ EC_STATE_OPERATIONAL then
      waitOperational bus chk (k + 1) (waitAttempt bus k st)
    else waitAttempt bus k st

/-- The library call `ec_readstate()`: refreshes the state of every slave. -/
def ec_readstate (bus : Bus) (st : State) : State :=
  { (st.call Call.ec_readstate) with
    ec_slave := fun i => { st.ec_slave i with state := bus.readstate i } }

/-- Lines 112-143: process-data mapping, the wait for Safe-Operational, the
expected work counter and the request of the Operational state. -/
def mapAndRequestOperational (bus : Bus) (st : State) : State :=
  let st1 : State := { (st.call Call.ec_config_map) with
    outputsWKC := bus.map_outputsWKC, inputsWKC := bus.map_inputsWKC }
  let st2 : State := st1.call Call.ec_configdc
  let st3 : State := setPdoPointers st2.devices_ st2
  let st4 : State :=
    (st3.call (Call.ec_statecheck 0 EC_STATE_SAFE_OP (EC_TIMEOUTSTATE * 4))).setSlaveState 0
      bus.safeop_state
  let st5 : State :=
    { st4 with expected_wkc_ := ((st4.outputsWKC : Int) * 2) + (st4.inputsWKC : Int) }
  let st6 : State := st5.setSlaveState 0 EC_STATE_OPERATIONAL
  let st7 : State := (st6.call Call.ec_send_processdata).call Call.ec_receive_processdata
  st7.call (Call.ec_writestate 0 (st7.ec_slave 0).state)

/-- Lines 153-199: what `init` does with the state the wait loop left.  The
first component is the value `init` returns, or `none` when it does not return:
line 161 constructs the new `std::thread`, which starts `pdoCycle`, and
move-assigns it to `ethercat_thread_`; when `ethercat_thread_` still holds the
thread of an earlier `init` (`close` leaves it running), the assignment calls
`std::terminate()`.  The second component is then the state at that point. -/
def finishInit (bus : Bus) (st : State) : Option Bool × State :=
  if (st.ec_slave 0).state = EC_STATE_OPERATIONAL then
    if st.thread_started then (none, st.call Call.thread_start)
    else
      (some true,
        { (st.call Call.thread_start) with thread_started := true, is_initialized_ := true })
  else
    (some false, close (ec_readstate bus { st with is_initialized_ := false }))

/-- Lines 104-151: the state when the wait loop is left, for a run of `init`
that got past the configuration of the devices. -/
def afterWaitLoop (bus : Bus) (st : State) : State :=
  waitOperational bus 40 0 (mapAndRequestOperational bus (disableCompleteAccess st))

/-- Lines 104-199: `init` from the end of the device configuration on. -/
def bringUp (bus : Bus) (st : State) : Option Bool × State :=
  finishInit bus (afterWaitLoop bus st)

/-- Lines 40-54: the state once `ec_init` has opened the interface and
`ec_config_init` has looked for slaves.  SOEM stores the number of slaves found
in `ec_slavecount` (0 when none answered) and fills `ec_slave[]`. -/
def openAndDiscover (bus : Bus) (st : State) : State :=
  let st1 : State := { st with is_initialized_ := false }
  let st2 : State := { (st1.call Call.ec_init) with socket_open := true }
  { (st2.call Call.ec_config_init) with
    ec_slavecount := if bus.ec_config_init > 0 then bus.ec_config_init else 0,
    ec_slave := bus.config_slave }

/-- Lines 26-227: `EthercatInterface::init`.  The first component is the value
returned, `none` when `init` ends in `std::terminate()` (see `finishInit`); the
second is the state when `init` returns or is terminated. -/
def init (bus : Bus) (st : State) : Option Bool × State :=
  if isInit st then (some true, st)
  else if bus.ec_init then
    let st1 : State := openAndDiscover bus st
    if bus.ec_config_init > 0 then
      if st1.num_slaves_ ≠ toUInt st1.ec_slavecount then (some false, st1)
      else if st1.devices_.length > toUInt st1.ec_slavecount then (some false, st1)
      else
        match configureDevices bus st1.devices_ st1 with
        | (false, st2) => (some false, st2)
        | (true, st2) => bringUp bus st2
    else (some false, close st1)
  else (some false, { st with is_initialized_ := false }.call Call.ec_init)

/-- Line 152: the state in which a run of `init` leaves the wait loop, when it
gets that far. -/
def stateAfterWait (bus : Bus) (st : State) : State :=
  afterWaitLoop bus (configureDevices bus st.devices_ (openAndDiscover bus st)).2

/-- Lines 271-291: `EthercatInterface::sdoRead`; the second component is `*data`
after the call. -/
def sdoRead (bus : Bus) (slave idx sub : Nat) (data : Int) : Bool × Int :=
  let r := bus.ec_SDOread slave idx sub data
  if r.1 = 1 then (true, r.2) else (false, r.2)

/-- Lines 293-311: `EthercatInterface::sdoWrite`. -/
def sdoWrite (bus : Bus) (slave idx sub : Nat) (fieldsize data : Int) : Bool :=
  let wkc := bus.ec_SDOwrite slave idx sub fieldsize data
  if wkc = 1 then true else false

/-- Line 322: `int currentgroup = 0;` -/
def currentgroup : Nat := 0

/-- Lines 339-386: the state-dependent action on one slave. -/
def checkSlave (bus : Bus) (slave : Nat) (st : State) : State :=
  if (st.ec_slave slave).group = currentgroup
      ∧ (st.ec_slave slave).state ≠ EC_STATE_OPERATIONAL then
    let st := { st with docheckstate := true }
    if (st.ec_slave slave).state = EC_STATE_SAFE_OP + EC_STATE_ERROR then
      let st := st.setSlaveState slave (EC_STATE_SAFE_OP + EC_STATE_ACK)
      st.call (Call.ec_writestate slave (st.ec_slave slave).state)
    else if (st.ec_slave slave).state = EC_STATE_SAFE_OP then
      let st := st.setSlaveState slave EC_STATE_OPERATIONAL
      st.call (Call.ec_writestate slave (st.ec_slave slave).state)
    else if (st.ec_slave slave).state > EC_STATE_NONE then
      let st := (st.call (Call.ec_reconfig_slave slave EC_TIMEOUTMON)).setSlaveState slave
        (bus.ec_reconfig_slave slave).2
      if (bus.ec_reconfig_slave slave).1 ≠ 0 then st.setSlaveLost slave false else st
    else if !(st.ec_slave slave).islost then
      let st := (st.call (Call.ec_statecheck slave EC_STATE_OPERATIONAL EC_TIMEOUTRET)).setSlaveState
        slave (bus.ec_statecheck slave)
      if (st.ec_slave slave).state = EC_STATE_NONE then st.setSlaveLost slave true else st
    else st
  else st

/-- Lines 387-407: the handling of a slave marked lost. -/
def handleLost (bus : Bus) (slave : Nat) (st : State) : State :=
  if (st.ec_slave slave).islost then
    if (st.ec_slave slave).state = EC_STATE_NONE then
      let st := st.call (Call.ec_recover_slave slave EC_TIMEOUTMON)
      if bus.ec_recover_slave slave ≠ 0 then st.setSlaveLost slave false else st
    else st.setSlaveLost slave false
  else st

/-- Lines 339-407: the body of the loop over the slaves. -/
def recoverSlave (bus : Bus) (slave : Nat) (st : State) : State :=
  handleLost bus slave (checkSlave bus slave st)

/-- Lines 334-408: one recovery pass. -/
def recoveryPass (bus : Bus) (st : State) : State :=
  let st := { st with docheckstate := false }
  let st := ec_readstate bus st
  (List.range' 1 st.ec_slavecount.toNat).foldl (fun s slave => recoverSlave bus slave s) st

/-- Lines 326-327: the process-data exchange; the work counter it returns is
stored in `wkc_`. -/
def exchangeProcessData (bus : Bus) (st : State) : State :=
  { ((st.call Call.ec_send_processdata).call Call.ec_receive_processdata) with
    wkc_ := bus.receive_wkc }

/-- Lines 326-418: one iteration of the loop `while (1)` of `pdoCycle`. -/
def pdoCycle (bus : Bus) (st : State) : State :=
  let st1 : State := exchangeProcessData bus st
  let st2 : State :=
    if st1.wkc_ < st1.expected_wkc_ ∨ st1.docheckstate = true then recoveryPass bus st1 else st1
  st2.call (Call.osal_usleep 5000)

/-- The slave a call of the recovery path addresses; `none` for the calls that
address the bus as a whole. -/
def Call.slaveOf : Call → Option Nat
  | Call.ec_writestate slave _ => some slave
  | Call.ec_statecheck slave _ _ => some slave
  | Call.ec_reconfig_slave slave _ => some slave
  | Call.ec_recover_slave slave _ => some slave
  | _ => none

/-- The calls of `n` passes through the body of the wait loop of `init`. -/
def waitCalls (n : Nat) : List Call :=
  (List.replicate n [Call.ec_send_processdata, Call.ec_receive_processdata,
    Call.ec_statecheck 0 EC_STATE_OPERATIONAL 50000]).flatten

/-! ## `JointPassive` -/

/-- A C++ `double`: the quiet NaN of `std::numeric_limits<double>`, or any
other value, given by its bit pattern. -/
inductive Double where
  | quiet_NaN
  | bits (b : Nat)
deriving DecidableEq, Repr

/-- The literal `0.0`. -/
def Double.zero : Double := Double.bits 0

/-- The members of `Joint` that `JointPassive` reads (`Joint.h`): the flag
`enabled_`, and for `drive_` the value its `readAuxiliaryPositionRad()`
returns. -/
structure JointPassive where
  enabled_ : Bool
  drive_readAuxiliaryPositionRad : Double
deriving DecidableEq, Repr

/-- Line 11 of `JointPassive.cpp`: `commandPositionRad`. -/
def JointPassive.commandPositionRad (_j : JointPassive) (_position_rad : Double) : Bool := false

/-- Line 13 of `JointPassive.cpp`: `commandVelocityRadSec`. -/
def JointPassive.commandVelocityRadSec (_j : JointPassive) (_velocity : Double) : Bool := false

/-- Line 15 of `JointPassive.cpp`: `commandTorqueNm`. -/
def JointPassive.commandTorqueNm (_j : JointPassive) (_torque_nm : Double) : Bool := false

/-- Lines 17-29 of `JointPassive.cpp`: `readPositionRad`; the second component
is `position_rad` after the call. -/
def JointPassive.readPositionRad (j : JointPassive) (_position_rad : Double) : Bool × Double :=
  if j.enabled_ then (true, j.drive_readAuxiliaryPositionRad)
  else (false, Double.quiet_NaN)

/-- Lines 31-44 of `JointPassive.cpp`: `readVelocityRadSec`; the second
component is `velocity_rad_sec` after the call. -/
def JointPassive.readVelocityRadSec (j : JointPassive) (_velocity_rad_sec : Double) :
    Bool × Double :=
  if j.enabled_ then (true, Double.zero)
  else (false, Double.quiet_NaN)

/-- Lines 46-50 of `JointPassive.cpp`: `readTorqueNm`; the second component is
`torque_nm` after the call. -/
def JointPassive.readTorqueNm (_j : JointPassive) (_torque_nm : Double) : Bool × Double :=
  (false, Double.quiet_NaN)

/-- Lines 52-56 of `JointPassive.cpp`: `readTempDegC`; the second component is
`temp_deg_c` after the call. -/
def JointPassive.readTempDegC (_j : JointPassive) (_temp_deg_c : Double) : Bool × Double :=
  (false, Double.quiet_NaN)

/-! ## Concrete buses and states -/

/-- A bus on which the interface opens, `found` slaves answer, every
configuration succeeds and every slave is Operational whenever it is asked. -/
def Bus.nominal (found : Int) : Bus :=
  { ec_init := true, ec_config_init := found,
    config_slave := fun _ => ⟨EC_STATE_PRE_OP, 0, false, 0⟩,
    configure := fun _ => true, map_outputsWKC := 1, map_inputsWKC := 1,
    safeop_state := EC_STATE_SAFE_OP, op_statecheck := fun _ => EC_STATE_OPERATIONAL,
    receive_wkc := 3, readstate := fun _ => EC_STATE_OPERATIONAL,
    ec_reconfig_slave := fun _ => (EC_STATE_SAFE_OP, EC_STATE_SAFE_OP),
    ec_statecheck := fun _ => EC_STATE_OPERATIONAL, ec_recover_slave := fun _ => 1,
    ec_SDOread := fun _ _ _ _ => (1, 0), ec_SDOwrite := fun _ _ _ _ _ => 1 }

/-- The nominal bus, except that every device's `configure()` fails. -/
def Bus.failingConfigure (found : Int) : Bus :=
  { Bus.nominal found with configure := fun _ => false }

/-- A state in which the interface is up, with one slave whose entry in
`ec_slave[]` is `s`. -/
def State.withSlave (s : ec_slavet) : State :=
  { State.fresh 1 with
    is_initialized_ := true, thread_started := true, socket_open := true,
    ec_slavecount := 1, expected_wkc_ := 3, ec_slave := fun _ => s }

/-- The nominal bus, except that the wait loop of `init` finds the bus
Operational at attempt `k` (from 0) and in Safe-Operational at the others. -/
def Bus.operationalAt (found : Int) (k : Nat) : Bus :=
  { Bus.nominal found with
    op_statecheck := fun i => if i = k then EC_STATE_OPERATIONAL else EC_STATE_SAFE_OP }

/-- The nominal bus, except that `ec_readstate` finds slave 2 in
Safe-Operational and the work counter received is 2. -/
def Bus.slaveTwoDegraded : Bus :=
  { Bus.nominal 2 with
    receive_wkc := 2,
    readstate := fun i => if i = 2 then EC_STATE_SAFE_OP else EC_STATE_OPERATIONAL }

/-- A state in which the interface is up with two slaves, both Operational and
neither marked lost, and an expected work counter of 3. -/
def State.twoSlaves : State :=
  { State.fresh 2 with
    is_initialized_ := true, thread_started := true, socket_open := true,
    ec_slavecount := 2, expected_wkc_ := 3,
    ec_slave := fun _ => ⟨EC_STATE_OPERATIONAL, 0, false, 0⟩ }

/-- A state in which the interface is up. -/
def State.running (num_slaves : Nat) : State :=
  { State.fresh num_slaves with
    is_initialized_ := true, thread_started := true, socket_open := true,
    ec_slavecount := num_slaves }

end platform_driver_ethercat

namespace platform_driver_ethercat

/-! ## Projections of the state updates -/

@[simp]
theorem call_calls (st : State) (c : Call) : (st.call c).calls = st.calls ++ [c] := rfl
@[simp]
theorem call_is_initialized (st : State) (c : Call) :
    (st.call c).is_initialized_ = st.is_initialized_ := rfl
@[simp]
theorem call_thread_started (st : State) (c : Call) :
    (st.call c).thread_started = st.thread_started := rfl
@[simp]
theorem call_socket_open (st : State) (c : Call) :
    (st.call c).socket_open = st.socket_open := rfl
@[simp]
theorem call_ec_slave (st : State) (c : Call) : (st.call c).ec_slave = st.ec_slave := rfl
@[simp]
theorem call_ec_slavecount (st : State) (c : Call) :
    (st.call c).ec_slavecount = st.ec_slavecount := rfl
@[simp]
theorem call_devices (st : State) (c : Call) : (st.call c).devices_ = st.devices_ := rfl
@[simp]
theorem call_num_slaves (st : State) (c : Call) :
    (st.call c).num_slaves_ = st.num_slaves_ := rfl
@[simp]
theorem call_expected_wkc (st : State) (c : Call) :
    (st.call c).expected_wkc_ = st.expected_wkc_ := rfl
@[simp]
theorem call_docheckstate (st : State) (c : Call) :
    (st.call c).docheckstate = st.docheckstate := rfl
@[simp]
theorem call_outputsWKC (st : State) (c : Call) :
    (st.call c).outputsWKC = st.outputsWKC := rfl
@[simp]
theorem call_inputsWKC (st : State) (c : Call) :
    (st.call c).inputsWKC = st.inputsWKC := rfl

@[simp]
theorem setSlaveState_calls (st : State) (i s : Nat) :
    (st.setSlaveState i s).calls = st.calls := rfl
@[simp]
theorem setSlaveState_is_initialized (st : State) (i s : Nat) :
    (st.setSlaveState i s).is_initialized_ = st.is_initialized_ := rfl
@[simp]
theorem setSlaveState_thread_started (st : State) (i s : Nat) :
    (st.setSlaveState i s).thread_started = st.thread_started := rfl
@[simp]
theorem setSlaveState_socket_open (st : State) (i s : Nat) :
    (st.setSlaveState i s).socket_open = st.socket_open := rfl
@[simp]
theorem setSlaveState_ec_slavecount (st : State) (i s : Nat) :
    (st.setSlaveState i s).ec_slavecount = st.ec_slavecount := rfl
@[simp]
theorem setSlaveState_devices (st : State) (i s : Nat) :
    (st.setSlaveState i s).devices_ = st.devices_ := rfl
@[simp]
theorem setSlaveState_expected_wkc (st : State) (i s : Nat) :
    (st.setSlaveState i s).expected_wkc_ = st.expected_wkc_ := rfl
@[simp]
theorem setSlaveState_docheckstate (st : State) (i s : Nat) :
    (st.setSlaveState i s).docheckstate = st.docheckstate := rfl
@[simp]
theorem setSlaveState_outputsWKC (st : State) (i s : Nat) :
    (st.setSlaveState i s).outputsWKC = st.outputsWKC := rfl
@[simp]
theorem setSlaveState_inputsWKC (st : State) (i s : Nat) :
    (st.setSlaveState i s).inputsWKC = st.inputsWKC := rfl
@[simp]
theorem setSlaveState_state (st : State) (i s : Nat) :
    ((st.setSlaveState i s).ec_slave i).state = s := by
  simp [State.setSlaveState]
@[simp]
theorem setSlaveState_islost (st : State) (i s : Nat) :
    ((st.setSlaveState i s).ec_slave i).islost = (st.ec_slave i).islost := by
  simp [State.setSlaveState]

@[simp]
theorem setSlaveLost_calls (st : State) (i : Nat) (b : Bool) :
    (st.setSlaveLost i b).calls = st.calls := rfl
@[simp]
theorem setSlaveLost_expected_wkc (st : State) (i : Nat) (b : Bool) :
    (st.setSlaveLost i b).expected_wkc_ = st.expected_wkc_ := rfl
@[simp]
theorem setSlaveLost_ec_slavecount (st : State) (i : Nat) (b : Bool) :
    (st.setSlaveLost i b).ec_slavecount = st.ec_slavecount := rfl
@[simp]
theorem setSlaveLost_state (st : State) (i : Nat) (b : Bool) :
    ((st.setSlaveLost i b).ec_slave i).state = (st.ec_slave i).state := by
  simp [State.setSlaveLost]
@[simp]
theorem setSlaveLost_islost (st : State) (i : Nat) (b : Bool) :
    ((st.setSlaveLost i b).ec_slave i).islost = b := by
  simp [State.setSlaveLost]

/-! ## The loops of `init` -/

/-- The configuration loop changes nothing but the trace. -/
theorem configureDevices_frame (bus : Bus) (l : List (Nat × CanDevice)) (st : State) :
    (configureDevices bus l st).2 = { st with calls := (configureDevices bus l st).2.calls } := by
  induction l generalizing st with
  | nil => rfl
  | cons p rest ih =>
    obtain ⟨slave_id, d⟩ := p
    unfold configureDevices
    split_ifs with h
    · rfl
    · conv_lhs => rw [ih]
      rfl

/-- The configuration loop runs to its end exactly when no registered slave id
exceeds the number of slaves found. -/
theorem configureDevices_ok_iff (bus : Bus) (l : List (Nat × CanDevice)) (st : State) :
    (configureDevices bus l st).1 = true ↔ ∀ p ∈ l, p.1 ≤ toUInt st.ec_slavecount := by
  induction l generalizing st with
  | nil => simp [configureDevices]
  | cons p rest ih =>
    obtain ⟨slave_id, d⟩ := p
    unfold configureDevices
    split_ifs with h
    · simp only [List.mem_cons, forall_eq_or_imp, Bool.false_eq_true, false_iff, not_and]
      intro h2
      omega
    · rw [ih]
      simp only [call_ec_slavecount, List.mem_cons, forall_eq_or_imp]
      constructor
      · intro h2
        exact ⟨by omega, h2⟩
      · intro h2
        exact h2.2

/-- Calls other than `configure` are not issued by the configuration loop. -/
theorem configureDevices_count (bus : Bus) (c : Call) (hc : ∀ i ok, c ≠ Call.configure i ok)
    (l : List (Nat × CanDevice)) (st : State) :
    (configureDevices bus l st).2.calls.count c = st.calls.count c := by
  induction l generalizing st with
  | nil => rfl
  | cons p rest ih =>
    obtain ⟨slave_id, d⟩ := p
    unfold configureDevices
    split_ifs with h
    · rfl
    · rw [ih]
      have h2 := hc slave_id (bus.configure slave_id)
      simp [List.count_append, List.count_cons, Ne.symm h2]

/-- When the configuration loop runs to its end it has called `configure()` once
per registered device, in the order of the registry. -/
theorem configureDevices_calls (bus : Bus) (l : List (Nat × CanDevice)) (st : State)
    (h : (configureDevices bus l st).1 = true) :
    (configureDevices bus l st).2.calls
      = st.calls ++ l.map (fun p => Call.configure p.1 (bus.configure p.1)) := by
  induction l generalizing st with
  | nil => simp [configureDevices]
  | cons p rest ih =>
    obtain ⟨slave_id, d⟩ := p
    unfold configureDevices at h ⊢
    split_ifs at h ⊢ with h1
    rw [ih _ h]
    simp

/-- Handing out the PDO pointers changes nothing but the trace. -/
theorem setPdoPointers_frame (l : List (Nat × CanDevice)) (st : State) :
    setPdoPointers l st = { st with calls := (setPdoPointers l st).calls } := by
  induction l generalizing st with
  | nil => rfl
  | cons p rest ih =>
    obtain ⟨slave_id, d⟩ := p
    unfold setPdoPointers
    conv_lhs => rw [ih]
    rfl

/-- Calls other than `setInputPdo` and `setOutputPdo` are not issued when the
PDO pointers are handed out. -/
theorem setPdoPointers_count (c : Call) (hi : ∀ i, c ≠ Call.setInputPdo i)
    (ho : ∀ i, c ≠ Call.setOutputPdo i) (l : List (Nat × CanDevice)) (st : State) :
    (setPdoPointers l st).calls.count c = st.calls.count c := by
  induction l generalizing st with
  | nil => rfl
  | cons p rest ih =>
    obtain ⟨slave_id, d⟩ := p
    unfold setPdoPointers
    rw [ih]
    simp [List.count_append, List.count_cons, Ne.symm (hi slave_id), Ne.symm (ho slave_id)]

/-- The wait loop changes nothing but the trace and the slave table. -/
theorem waitOperational_frame (bus : Bus) (chk k : Nat) (st : State) :
    waitOperational bus chk k st
      = { st with calls := (waitOperational bus chk k st).calls,
                  ec_slave := (waitOperational bus chk k st).ec_slave } := by
  induction chk generalizing k st with
  | zero => rfl
  | succ n ih =>
    rw [waitOperational]
    split_ifs with h
    · have e := ih (k + 1) (waitAttempt bus k st)
      generalize waitOperational bus n (k + 1) (waitAttempt bus k st) = w at e ⊢
      exact e
    · rfl

/-- The wait loop issues only process-data exchanges and checks of the
Operational state. -/
theorem waitOperational_count (bus : Bus) (c : Call) (h1 : c ≠ Call.ec_send_processdata)
    (h2 : c ≠ Call.ec_receive_processdata)
    (h3 : c ≠ Call.ec_statecheck 0 EC_STATE_OPERATIONAL 50000) (chk k : Nat) (st : State) :
    (waitOperational bus chk k st).calls.count c = st.calls.count c := by
  have hb : ∀ k st, (waitAttempt bus k st).calls.count c = st.calls.count c := by
    intro k st
    simp [waitAttempt, List.count_append, List.count_cons, Ne.symm h1, Ne.symm h2, Ne.symm h3]
  induction chk generalizing k st with
  | zero => exact hb k st
  | succ n ih =>
    rw [waitOperational]
    split_ifs with h
    · rw [ih, hb]
    · exact hb k st

/-- The wait loop ends with the bus Operational exactly when one of the
attempts it may make finds the bus Operational. -/
theorem waitOperational_state_iff (bus : Bus) (chk k : Nat) (st : State) :
    ((waitOperational bus chk k st).ec_slave 0).state = EC_STATE_OPERATIONAL
      ↔ ∃ j, j ≤ chk ∧ bus.op_statecheck (k + j) = EC_STATE_OPERATIONAL := by
  have hb : ∀ k st, ((waitAttempt bus k st).ec_slave 0).state = bus.op_statecheck k := by
    intro k st
    simp [waitAttempt]
  induction chk generalizing k st with
  | zero =>
    rw [waitOperational, hb]
    simp
  | succ n ih =>
    rw [waitOperational]
    split_ifs with h
    · refine (ih (k + 1) (waitAttempt bus k st)).trans ?_
      rw [hb] at h
      constructor
      · rintro ⟨j, hj, hs⟩
        exact ⟨j + 1, by omega, by rw [← hs]; congr 1; omega⟩
      · rintro ⟨j, hj, hs⟩
        cases j with
        | zero => exact absurd hs h
        | succ i => exact ⟨i, by omega, by rw [← hs]; congr 1; omega⟩
    · rw [hb] at h ⊢
      have h2 : bus.op_statecheck k = EC_STATE_OPERATIONAL := by simpa using h
      constructor
      · intro _
        exact ⟨0, by omega, h2⟩
      · intro _
        exact h2

/-- A positive C `int` is unchanged by the conversion to `unsigned int`. -/
theorem toUInt_of_pos (m : Int) (h0 : 0 < m) (h1 : m < 2147483648) : (toUInt m : Int) = m := by
  unfold toUInt
  rw [Int.emod_eq_of_lt (le_of_lt h0) (by omega)]
  exact Int.toNat_of_nonneg (le_of_lt h0)

/-- Mapping and the request of the Operational state issue, besides the calls
that hand out PDO pointers, exactly the six library calls of lines 112-143. -/
theorem mapAndRequestOperational_count (bus : Bus) (c : Call)
    (hi : ∀ i, c ≠ Call.setInputPdo i) (ho : ∀ i, c ≠ Call.setOutputPdo i) (st : State) :
    (mapAndRequestOperational bus st).calls.count c
      = st.calls.count c
        + [Call.ec_config_map, Call.ec_configdc,
           Call.ec_statecheck 0 EC_STATE_SAFE_OP (EC_TIMEOUTSTATE * 4),
           Call.ec_send_processdata, Call.ec_receive_processdata,
           Call.ec_writestate 0 EC_STATE_OPERATIONAL].count c := by
  unfold mapAndRequestOperational
  simp only [call_calls, call_ec_slave, setSlaveState_calls, List.count_append,
    setPdoPointers_count c hi ho, setSlaveState_state, List.append_assoc]
  simp only [List.count_cons, List.count_nil]
  omega

@[simp]
theorem setPdoPointers_is_initialized (l : List (Nat × CanDevice)) (st : State) :
    (setPdoPointers l st).is_initialized_ = st.is_initialized_ := by
  have h := congrArg State.is_initialized_ (setPdoPointers_frame l st)
  exact h
@[simp]
theorem setPdoPointers_thread_started (l : List (Nat × CanDevice)) (st : State) :
    (setPdoPointers l st).thread_started = st.thread_started := by
  have h := congrArg State.thread_started (setPdoPointers_frame l st)
  exact h
@[simp]
theorem setPdoPointers_socket_open (l : List (Nat × CanDevice)) (st : State) :
    (setPdoPointers l st).socket_open = st.socket_open := by
  have h := congrArg State.socket_open (setPdoPointers_frame l st)
  exact h
@[simp]
theorem setPdoPointers_outputsWKC (l : List (Nat × CanDevice)) (st : State) :
    (setPdoPointers l st).outputsWKC = st.outputsWKC := by
  have h := congrArg State.outputsWKC (setPdoPointers_frame l st)
  exact h
@[simp]
theorem setPdoPointers_inputsWKC (l : List (Nat × CanDevice)) (st : State) :
    (setPdoPointers l st).inputsWKC = st.inputsWKC := by
  have h := congrArg State.inputsWKC (setPdoPointers_frame l st)
  exact h

/-- Mapping and the request of the Operational state leave the flags of the
class alone and set the expected work counter from the counters of group 0. -/
theorem mapAndRequestOperational_fields (bus : Bus) (st : State) :
    (mapAndRequestOperational bus st).is_initialized_ = st.is_initialized_
      ∧ (mapAndRequestOperational bus st).thread_started = st.thread_started
      ∧ (mapAndRequestOperational bus st).socket_open = st.socket_open
      ∧ (mapAndRequestOperational bus st).outputsWKC = bus.map_outputsWKC
      ∧ (mapAndRequestOperational bus st).inputsWKC = bus.map_inputsWKC
      ∧ (mapAndRequestOperational bus st).expected_wkc_
          = (bus.map_outputsWKC : Int) * 2 + (bus.map_inputsWKC : Int) := by
  simp [mapAndRequestOperational]

/-- The flags of the class and the expected work counter when the wait loop is
left. -/
theorem afterWaitLoop_fields (bus : Bus) (st : State) :
    (afterWaitLoop bus st).is_initialized_ = st.is_initialized_
      ∧ (afterWaitLoop bus st).thread_started = st.thread_started
      ∧ (afterWaitLoop bus st).socket_open = st.socket_open
      ∧ (afterWaitLoop bus st).outputsWKC = bus.map_outputsWKC
      ∧ (afterWaitLoop bus st).inputsWKC = bus.map_inputsWKC
      ∧ (afterWaitLoop bus st).expected_wkc_
          = (bus.map_outputsWKC : Int) * 2 + (bus.map_inputsWKC : Int) := by
  unfold afterWaitLoop
  have hf := waitOperational_frame bus 40 0 (mapAndRequestOperational bus (disableCompleteAccess st))
  obtain ⟨h1, h2, h3, h4, h5, h6⟩ := mapAndRequestOperational_fields bus (disableCompleteAccess st)
  refine ⟨?_, ?_, ?_, ?_, ?_, ?_⟩
  · exact (congrArg State.is_initialized_ hf).trans h1
  · exact (congrArg State.thread_started hf).trans h2
  · exact (congrArg State.socket_open hf).trans h3
  · exact (congrArg State.outputsWKC hf).trans h4
  · exact (congrArg State.inputsWKC hf).trans h5
  · exact (congrArg State.expected_wkc_ hf).trans h6

/-- The wait loop of `init` is left with the bus Operational exactly when one
of its 41 possible attempts finds it Operational. -/
theorem afterWaitLoop_state_iff (bus : Bus) (st : State) :
    ((afterWaitLoop bus st).ec_slave 0).state = EC_STATE_OPERATIONAL
      ↔ ∃ k, k ≤ 40 ∧ bus.op_statecheck k = EC_STATE_OPERATIONAL := by
  unfold afterWaitLoop
  rw [waitOperational_state_iff]
  simp

/-- Calls issued between the configuration of the devices and the end of the
wait loop. -/
theorem afterWaitLoop_count (bus : Bus) (c : Call)
    (hi : ∀ i, c ≠ Call.setInputPdo i) (ho : ∀ i, c ≠ Call.setOutputPdo i)
    (h1 : c ≠ Call.ec_send_processdata) (h2 : c ≠ Call.ec_receive_processdata)
    (h3 : c ≠ Call.ec_statecheck 0 EC_STATE_OPERATIONAL 50000) (st : State) :
    (afterWaitLoop bus st).calls.count c
      = st.calls.count c
        + [Call.ec_config_map, Call.ec_configdc,
           Call.ec_statecheck 0 EC_STATE_SAFE_OP (EC_TIMEOUTSTATE * 4),
           Call.ec_writestate 0 EC_STATE_OPERATIONAL].count c := by
  unfold afterWaitLoop
  rw [waitOperational_count bus c h1 h2 h3, mapAndRequestOperational_count bus c hi ho]
  have e : (disableCompleteAccess st).calls = st.calls := rfl
  rw [e]
  simp [List.count_cons, Ne.symm h1, Ne.symm h2]

/-- After `finishInit` the interface is initialized exactly when `true` is
returned, if it was not initialized before. -/
theorem finishInit_is_initialized (bus : Bus) (st : State) (hst : st.is_initialized_ = false) :
    (finishInit bus st).2.is_initialized_ = decide ((finishInit bus st).1 = some true) := by
  unfold finishInit
  split_ifs with h h2
  · simpa using hst
  · rfl
  · simp [close, isInit, ec_readstate, State.call]

/-- The value `finishInit` returns: `true` when the bus is Operational and no
cyclic thread was started before, `false` when the bus is not Operational, and
none when the bus is Operational and the thread of an earlier `init` is still
held. -/
theorem finishInit_result (bus : Bus) (st : State) :
    (finishInit bus st).1
      = if (st.ec_slave 0).state = EC_STATE_OPERATIONAL then
          (if st.thread_started then none else some true)
        else some false := by
  unfold finishInit
  split_ifs <;> rfl

/-- The value `finishInit` returns is `true` exactly when the bus is Operational
and no cyclic thread was started before. -/
theorem finishInit_result_iff (bus : Bus) (st : State) :
    (finishInit bus st).1 = some true
      ↔ (st.ec_slave 0).state = EC_STATE_OPERATIONAL ∧ st.thread_started = false := by
  rw [finishInit_result]
  by_cases h : (st.ec_slave 0).state = EC_STATE_OPERATIONAL
  · cases h2 : st.thread_started <;> simp [h]
  · simp [h]

/-- The value `init` returns once the devices are configured: `true` exactly
when one of the attempts of the wait loop finds the bus Operational and no
cyclic thread was started before. -/
theorem bringUp_result_iff (bus : Bus) (st : State) :
    (bringUp bus st).1 = some true
      ↔ (∃ k, k ≤ 40 ∧ bus.op_statecheck k = EC_STATE_OPERATIONAL) ∧ st.thread_started = false := by
  rw [← afterWaitLoop_state_iff bus st]
  obtain ⟨_, f2, _⟩ := afterWaitLoop_fields bus st
  rw [← f2]
  unfold bringUp
  exact finishInit_result_iff bus (afterWaitLoop bus st)

/-- When interface opening, discovery and the topology checks pass, `init` is
what `finishInit` makes of the state the wait loop leaves. -/
theorem init_of_checks_passed (bus : Bus) (st : State) (m : Nat)
    (hinit : isInit st = false) (hopen : bus.ec_init = true) (hm : bus.ec_config_init = (m : Int))
    (hpos : 0 < m) (hint : m < 2147483648) (hn : st.num_slaves_ = m)
    (hdev : st.devices_.length ≤ m) (hids : ∀ p ∈ st.devices_, p.1 ≤ m) :
    init bus st = finishInit bus (stateAfterWait bus st) := by
  have hcast : toUInt (m : Int) = m := by
    have := toUInt_of_pos (m : Int) (by exact_mod_cast hpos) (by exact_mod_cast hint)
    exact_mod_cast this
  have hpos2 : (0 : Int) < (m : Int) := by exact_mod_cast hpos
  have hc : (openAndDiscover bus st).ec_slavecount = (m : Int) := by
    simp [openAndDiscover, hm, hpos]
  have hd : (openAndDiscover bus st).devices_ = st.devices_ := rfl
  have hnn : (openAndDiscover bus st).num_slaves_ = st.num_slaves_ := rfl
  have hok : (configureDevices bus st.devices_ (openAndDiscover bus st)).1 = true := by
    rw [configureDevices_ok_iff, hc, hcast]
    exact hids
  unfold init stateAfterWait
  simp only [hinit, hopen, hm, hpos2, hc, hd, hnn, hcast, hn, if_true, Bool.false_eq_true,
    if_false, ne_eq, not_true_eq_false, gt_iff_lt, not_lt.mpr hdev]
  rcases hcd : configureDevices bus st.devices_ (openAndDiscover bus st) with ⟨b, st2⟩
  rw [hcd] at hok
  simp only at hok
  subst hok
  rfl

/-- When interface opening, discovery and the two count checks pass but a
registered slave id exceeds the number of slaves found, `init` returns `false`
from inside the configuration loop. -/
theorem init_of_address_too_large (bus : Bus) (st : State) (m : Nat)
    (hinit : isInit st = false) (hopen : bus.ec_init = true) (hm : bus.ec_config_init = (m : Int))
    (hpos : 0 < m) (hint : m < 2147483648) (hn : st.num_slaves_ = m)
    (hdev : st.devices_.length ≤ m) (hid : ∃ p ∈ st.devices_, m < p.1) :
    init bus st = (some false, (configureDevices bus st.devices_ (openAndDiscover bus st)).2) := by
  have hcast : toUInt (m : Int) = m := by
    have := toUInt_of_pos (m : Int) (by exact_mod_cast hpos) (by exact_mod_cast hint)
    exact_mod_cast this
  have hpos2 : (0 : Int) < (m : Int) := by exact_mod_cast hpos
  have hc : (openAndDiscover bus st).ec_slavecount = (m : Int) := by
    simp [openAndDiscover, hm, hpos]
  have hd : (openAndDiscover bus st).devices_ = st.devices_ := rfl
  have hnn : (openAndDiscover bus st).num_slaves_ = st.num_slaves_ := rfl
  have hnok : (configureDevices bus st.devices_ (openAndDiscover bus st)).1 = false := by
    rw [← Bool.not_eq_true, configureDevices_ok_iff, hc, hcast]
    obtain ⟨p, hp, hlt⟩ := hid
    intro h
    have := h p hp
    omega
  unfold init
  simp only [hinit, hopen, hm, hpos2, hc, hd, hnn, hcast, hn, if_true, Bool.false_eq_true,
    if_false, ne_eq, not_true_eq_false, gt_iff_lt, not_lt.mpr hdev]
  rcases hcd : configureDevices bus st.devices_ (openAndDiscover bus st) with ⟨b, st2⟩
  rw [hcd] at hnok
  simp only at hnok
  subst hnok
  rfl

/-- The flags of the class when the wait loop of `init` is left: the interface
is not marked initialized, the thread is as it was, the network handle is open. -/
theorem stateAfterWait_fields (bus : Bus) (st : State) :
    (stateAfterWait bus st).is_initialized_ = false
      ∧ (stateAfterWait bus st).thread_started = st.thread_started
      ∧ (stateAfterWait bus st).socket_open = true
      ∧ (stateAfterWait bus st).expected_wkc_
          = (bus.map_outputsWKC : Int) * 2 + (bus.map_inputsWKC : Int) := by
  unfold stateAfterWait
  obtain ⟨h1, h2, h3, _, _, h6⟩ :=
    afterWaitLoop_fields bus (configureDevices bus st.devices_ (openAndDiscover bus st)).2
  have hf := configureDevices_frame bus st.devices_ (openAndDiscover bus st)
  refine ⟨?_, ?_, ?_, h6⟩
  · rw [h1]
    have h := congrArg State.is_initialized_ hf
    exact h
  · rw [h2]
    have h := congrArg State.thread_started hf
    exact h
  · rw [h3]
    have h := congrArg State.socket_open hf
    exact h

/-- The calls issued by a run of `init` up to the end of its wait loop, apart
from those of the loops. -/
theorem stateAfterWait_count (bus : Bus) (c : Call) (hc : ∀ i ok, c ≠ Call.configure i ok)
    (hi : ∀ i, c ≠ Call.setInputPdo i) (ho : ∀ i, c ≠ Call.setOutputPdo i)
    (h1 : c ≠ Call.ec_send_processdata) (h2 : c ≠ Call.ec_receive_processdata)
    (h3 : c ≠ Call.ec_statecheck 0 EC_STATE_OPERATIONAL 50000) (st : State) :
    (stateAfterWait bus st).calls.count c
      = st.calls.count c
        + [Call.ec_init, Call.ec_config_init, Call.ec_config_map, Call.ec_configdc,
           Call.ec_statecheck 0 EC_STATE_SAFE_OP (EC_TIMEOUTSTATE * 4),
           Call.ec_writestate 0 EC_STATE_OPERATIONAL].count c := by
  unfold stateAfterWait
  rw [afterWaitLoop_count bus c hi ho h1 h2 h3, configureDevices_count bus c hc]
  have e : (openAndDiscover bus st).calls = st.calls ++ [Call.ec_init, Call.ec_config_init] := by
    simp [openAndDiscover]
  rw [e]
  simp only [List.count_append, List.count_cons, List.count_nil]
  omega

/-- The calls `finishInit` adds to the trace. -/
theorem finishInit_calls (bus : Bus) (st : State) :
    (finishInit bus st).2.calls
      = st.calls ++ (if (st.ec_slave 0).state = EC_STATE_OPERATIONAL then [Call.thread_start]
                     else [Call.ec_readstate, Call.ec_close]) := by
  unfold finishInit
  split_ifs with h h2
  · simp
  · simp
  · simp [close, isInit, ec_readstate, State.call]

/-- The bus-wide state at the end of the wait loop of `init`. -/
theorem stateAfterWait_state_iff (bus : Bus) (st : State) :
    ((stateAfterWait bus st).ec_slave 0).state = EC_STATE_OPERATIONAL
      ↔ ∃ k, k ≤ 40 ∧ bus.op_statecheck k = EC_STATE_OPERATIONAL := by
  unfold stateAfterWait
  exact afterWaitLoop_state_iff bus _

/-! ## The cyclic loop -/

/-- The action on one slave issues no `ec_readstate` and leaves the expected
work counter and the slave count alone. -/
theorem checkSlave_frame (bus : Bus) (slave : Nat) (st : State) :
    (checkSlave bus slave st).calls.count Call.ec_readstate = st.calls.count Call.ec_readstate
      ∧ (checkSlave bus slave st).expected_wkc_ = st.expected_wkc_
      ∧ (checkSlave bus slave st).ec_slavecount = st.ec_slavecount := by
  unfold checkSlave
  dsimp only
  split_ifs <;> simp [List.count_append]

/-- The handling of a lost slave issues no `ec_readstate` and leaves the expected
work counter and the slave count alone. -/
theorem handleLost_frame (bus : Bus) (slave : Nat) (st : State) :
    (handleLost bus slave st).calls.count Call.ec_readstate = st.calls.count Call.ec_readstate
      ∧ (handleLost bus slave st).expected_wkc_ = st.expected_wkc_
      ∧ (handleLost bus slave st).ec_slavecount = st.ec_slavecount := by
  unfold handleLost
  dsimp only
  split_ifs <;> simp [List.count_append]

/-- The loop over the slaves issues no `ec_readstate` and leaves the expected
work counter alone. -/
theorem recoverSlaves_frame (bus : Bus) (l : List Nat) (st : State) :
    (l.foldl (fun s slave => recoverSlave bus slave s) st).calls.count Call.ec_readstate
        = st.calls.count Call.ec_readstate
      ∧ (l.foldl (fun s slave => recoverSlave bus slave s) st).expected_wkc_ = st.expected_wkc_ := by
  induction l generalizing st with
  | nil => exact ⟨rfl, rfl⟩
  | cons a rest ih =>
    rw [List.foldl_cons]
    obtain ⟨h1, h2⟩ := ih (recoverSlave bus a st)
    obtain ⟨c1, c2, _⟩ := checkSlave_frame bus a st
    obtain ⟨d1, d2, _⟩ := handleLost_frame bus a (checkSlave bus a st)
    unfold recoverSlave at h1 h2 ⊢
    exact ⟨by rw [h1, d1, c1], by rw [h2, d2, c2]⟩

/-- A recovery pass reads the slave states once and leaves the expected work
counter alone. -/
theorem recoveryPass_frame (bus : Bus) (st : State) :
    (recoveryPass bus st).calls.count Call.ec_readstate = st.calls.count Call.ec_readstate + 1
      ∧ (recoveryPass bus st).expected_wkc_ = st.expected_wkc_ := by
  unfold recoveryPass
  simp only
  obtain ⟨h1, h2⟩ := recoverSlaves_frame bus
    (List.range' 1 (ec_readstate bus { st with docheckstate := false }).ec_slavecount.toNat)
    (ec_readstate bus { st with docheckstate := false })
  refine ⟨?_, ?_⟩
  · rw [h1]
    simp [ec_readstate, List.count_append]
  · rw [h2]
    rfl

/-- A successful `init` on an interface that was not initialized leaves the
expected work counter computed from the counters of group 0. -/
theorem init_true_expected_wkc (bus : Bus) (st : State) (hinit : isInit st = false)
    (hres : (init bus st).1 = some true) :
    (init bus st).2.expected_wkc_
        = ((init bus st).2.outputsWKC : Int) * 2 + ((init bus st).2.inputsWKC : Int)
      ∧ (init bus st).2.outputsWKC = bus.map_outputsWKC
      ∧ (init bus st).2.inputsWKC = bus.map_inputsWKC := by
  unfold init at hres ⊢
  simp only [hinit, Bool.false_eq_true, if_false] at hres ⊢
  by_cases h1 : bus.ec_init = true
  swap
  · simp [h1] at hres
  by_cases h2 : bus.ec_config_init > 0
  swap
  · simp [h1, h2] at hres
  by_cases h3 : (openAndDiscover bus st).num_slaves_ ≠ toUInt (openAndDiscover bus st).ec_slavecount
  · simp [h1, h2, h3] at hres
  by_cases h4 : (openAndDiscover bus st).devices_.length > toUInt (openAndDiscover bus st).ec_slavecount
  · simp [h1, h2, h3, h4] at hres
  simp only [h1, h2, h3, h4, if_true, if_false] at hres ⊢
  rcases hcd : configureDevices bus (openAndDiscover bus st).devices_ (openAndDiscover bus st)
    with ⟨b, st2⟩
  rw [hcd] at hres
  cases b with
  | false => simp at hres
  | true =>
    simp only at hres ⊢
    obtain ⟨_, _, _, f4, f5, f6⟩ := afterWaitLoop_fields bus st2
    unfold bringUp at hres ⊢
    obtain ⟨h5, h6⟩ := (finishInit_result_iff bus (afterWaitLoop bus st2)).mp hres
    unfold finishInit
    rw [if_pos h5, if_neg (by simp [h6])]
    simp only [call_expected_wkc, call_outputsWKC, call_inputsWKC]
    rw [f4, f5, f6]
    exact ⟨rfl, rfl, rfl⟩

/-! ## `init` on an interface whose cyclic thread is still held -/

/-- When interface opening, discovery and the topology checks pass, the bus
becomes Operational and `ethercat_thread_` still holds the thread of an earlier
`init`, `init` does not return: the new thread is started and the assignment of
line 161 ends the program, with the interface not marked initialized. -/
theorem init_terminates_when_thread_held (bus : Bus) (st : State) (m : Nat)
    (hinit : isInit st = false) (hthread : st.thread_started = true)
    (hopen : bus.ec_init = true) (hm : bus.ec_config_init = (m : Int))
    (hpos : 0 < m) (hint : m < 2147483648) (hn : st.num_slaves_ = m)
    (hdev : st.devices_.length ≤ m) (hids : ∀ p ∈ st.devices_, p.1 ≤ m)
    (hop : ∃ k, k ≤ 40 ∧ bus.op_statecheck k = EC_STATE_OPERATIONAL) :
    (init bus st).1 = none ∧ isInit (init bus st).2 = false := by
  rw [init_of_checks_passed bus st m hinit hopen hm hpos hint hn hdev hids]
  obtain ⟨f1, f2, _⟩ := stateAfterWait_fields bus st
  have h1 := (stateAfterWait_state_iff bus st).mpr hop
  unfold finishInit
  rw [if_pos h1, f2, hthread]
  exact ⟨rfl, f1⟩

/-- The sequence `init(); close(); init()` on a bus that is Operational at once:
the first `init` returns `true`, the second does not return. -/
theorem init_close_init_terminates :
    (init (Bus.nominal 1) (State.fresh 1)).1 = some true
      ∧ isInit (close (init (Bus.nominal 1) (State.fresh 1)).2) = false
      ∧ (init (Bus.nominal 1) (close (init (Bus.nominal 1) (State.fresh 1)).2)).1 = none := by
  decide

/-! ## The number of attempts of the wait loop -/

/-- One more pass through the body of the wait loop. -/
theorem waitCalls_succ (n : Nat) :
    waitCalls (n + 1)
      = [Call.ec_send_processdata, Call.ec_receive_processdata,
         Call.ec_statecheck 0 EC_STATE_OPERATIONAL 50000] ++ waitCalls n := by
  simp [waitCalls, List.replicate_succ]

/-- The wait loop entered with counter `chk` makes `n` attempts, with
`1 ≤ n ≤ chk + 1`: no attempt before the last finds the bus Operational, and
the last does unless the counter ran out. -/
theorem waitOperational_attempts (bus : Bus) (chk k : Nat) (st : State) :
    ∃ n, 1 ≤ n ∧ n ≤ chk + 1
      ∧ (waitOperational bus chk k st).calls = st.calls ++ waitCalls n
      ∧ (∀ j, j + 1 < n → bus.op_statecheck (k + j) ≠ EC_STATE_OPERATIONAL)
      ∧ (n = chk + 1 ∨ bus.op_statecheck (k + (n - 1)) = EC_STATE_OPERATIONAL)
      ∧ ((waitOperational bus chk k st).ec_slave 0).state = bus.op_statecheck (k + (n - 1)) := by
  have hb : ∀ k st, ((waitAttempt bus k st).ec_slave 0).state = bus.op_statecheck k := by
    intro k st
    simp [waitAttempt]
  have hc : ∀ k st, (waitAttempt bus k st).calls = st.calls ++ waitCalls 1 := by
    intro k st
    simp [waitAttempt, waitCalls]
  induction chk generalizing k st with
  | zero =>
    refine ⟨1, le_refl 1, le_refl 1, ?_, ?_, Or.inl rfl, ?_⟩
    · rw [waitOperational, hc]
    · intro j hj
      omega
    · rw [waitOperational, hb]
      rfl
  | succ m ih =>
    rw [waitOperational]
    split_ifs with h
    · obtain ⟨n, h1, h2, h3, h4, h5, h6⟩ := ih (k + 1) (waitAttempt bus k st)
      rw [hb] at h
      refine ⟨n + 1, by omega, by omega, ?_, ?_, ?_, ?_⟩
      · rw [h3, hc, List.append_assoc, waitCalls_succ n]
        rfl
      · intro j hj
        cases j with
        | zero => exact h
        | succ i =>
          have := h4 i (by omega)
          rwa [show k + (i + 1) = k + 1 + i by omega]
      · rcases h5 with h5 | h5
        · exact Or.inl (by omega)
        · right
          rwa [show k + (n + 1 - 1) = k + 1 + (n - 1) by omega]
      · rw [h6]
        congr 1
        omega
    · rw [hb] at h
      have h2 : bus.op_statecheck k = EC_STATE_OPERATIONAL := by simpa using h
      refine ⟨1, le_refl 1, by omega, hc k st, ?_, Or.inr h2, ?_⟩
      · intro j hj
        omega
      · rw [hb]
        rfl

/-! ## The slaves a recovery pass acts on -/

/-- A slave that is Operational is passed over by the state-dependent action. -/
theorem checkSlave_noop (bus : Bus) (slave : Nat) (st : State)
    (h : (st.ec_slave slave).state = EC_STATE_OPERATIONAL) : checkSlave bus slave st = st := by
  unfold checkSlave
  rw [if_neg]
  intro hc
  exact hc.2 h

/-- A slave that is not marked lost is passed over by the lost-handling step. -/
theorem handleLost_noop (bus : Bus) (slave : Nat) (st : State)
    (h : (st.ec_slave slave).islost = false) : handleLost bus slave st = st := by
  unfold handleLost
  rw [if_neg]
  simp [h]

/-- The calls of the state-dependent action all address its slave. -/
theorem checkSlave_calls (bus : Bus) (slave : Nat) (st : State) :
    ∃ l, (checkSlave bus slave st).calls = st.calls ++ l
      ∧ ∀ c ∈ l, Call.slaveOf c = some slave := by
  unfold checkSlave
  dsimp only
  split_ifs
  all_goals first
    | exact ⟨[], (List.append_nil _).symm, by simp⟩
    | exact ⟨[_], rfl, by simp [Call.slaveOf]⟩

/-- The calls of the lost-handling step all address its slave. -/
theorem handleLost_calls (bus : Bus) (slave : Nat) (st : State) :
    ∃ l, (handleLost bus slave st).calls = st.calls ++ l
      ∧ ∀ c ∈ l, Call.slaveOf c = some slave := by
  unfold handleLost
  dsimp only
  split_ifs
  all_goals first
    | exact ⟨[], (List.append_nil _).symm, by simp⟩
    | exact ⟨[_], rfl, by simp [Call.slaveOf]⟩

/-- The state-dependent action changes the entry of no other slave. -/
theorem checkSlave_other (bus : Bus) (slave j : Nat) (st : State) (hj : j ≠ slave) :
    (checkSlave bus slave st).ec_slave j = st.ec_slave j := by
  unfold checkSlave
  dsimp only
  split_ifs <;>
    simp [State.setSlaveState, State.setSlaveLost, State.call, Function.update_noteq hj]

/-- The lost-handling step changes the entry of no other slave. -/
theorem handleLost_other (bus : Bus) (slave j : Nat) (st : State) (hj : j ≠ slave) :
    (handleLost bus slave st).ec_slave j = st.ec_slave j := by
  unfold handleLost
  dsimp only
  split_ifs <;>
    simp [State.setSlaveState, State.setSlaveLost, State.call, Function.update_noteq hj]

/-- The body of the loop over the slaves: its calls address its slave, it
issues some only for a slave that is not Operational or is marked lost, and it
changes the entry of no other slave. -/
theorem recoverSlave_step (bus : Bus) (slave : Nat) (st : State) :
    (∃ l, (recoverSlave bus slave st).calls = st.calls ++ l
        ∧ ∀ c ∈ l, Call.slaveOf c = some slave
            ∧ ((st.ec_slave slave).state ≠ EC_STATE_OPERATIONAL
                ∨ (st.ec_slave slave).islost = true))
      ∧ (∀ j, j ≠ slave → (recoverSlave bus slave st).ec_slave j = st.ec_slave j)
      ∧ ((st.ec_slave slave).state = EC_STATE_OPERATIONAL → (st.ec_slave slave).islost = false →
          recoverSlave bus slave st = st) := by
  refine ⟨?_, ?_, ?_⟩
  · by_cases h : (st.ec_slave slave).state = EC_STATE_OPERATIONAL
        ∧ (st.ec_slave slave).islost = false
    · unfold recoverSlave
      rw [checkSlave_noop bus slave st h.1, handleLost_noop bus slave st h.2]
      exact ⟨[], (List.append_nil _).symm, by simp⟩
    · have hd : (st.ec_slave slave).state ≠ EC_STATE_OPERATIONAL
          ∨ (st.ec_slave slave).islost = true := by
        by_cases h1 : (st.ec_slave slave).state = EC_STATE_OPERATIONAL
        · right
          cases hl : (st.ec_slave slave).islost
          · exact absurd ⟨h1, hl⟩ h
          · rfl
        · exact Or.inl h1
      obtain ⟨l1, e1, p1⟩ := checkSlave_calls bus slave st
      obtain ⟨l2, e2, p2⟩ := handleLost_calls bus slave (checkSlave bus slave st)
      refine ⟨l1 ++ l2, ?_, ?_⟩
      · unfold recoverSlave
        rw [e2, e1, List.append_assoc]
      · intro c hc
        rcases List.mem_append.mp hc with hc | hc
        · exact ⟨p1 c hc, hd⟩
        · exact ⟨p2 c hc, hd⟩
  · intro j hj
    unfold recoverSlave
    rw [handleLost_other bus slave j _ hj, checkSlave_other bus slave j st hj]
  · intro h1 h2
    unfold recoverSlave
    rw [checkSlave_noop bus slave st h1, handleLost_noop bus slave st h2]

/-- The loop over the slaves of a list without repetition: every call it
issues addresses a slave of the list that was not Operational or was marked
lost when the loop started, and the entries of the slaves that were
Operational and not marked lost, or are not in the list, are left as they were. -/
theorem recoverSlaves_acts_on (bus : Bus) (l : List Nat) (hnd : l.Nodup) (st : State) :
    (∃ lc, (l.foldl (fun s slave => recoverSlave bus slave s) st).calls = st.calls ++ lc
        ∧ ∀ c ∈ lc, ∃ j ∈ l, Call.slaveOf c = some j
            ∧ ((st.ec_slave j).state ≠ EC_STATE_OPERATIONAL ∨ (st.ec_slave j).islost = true))
      ∧ (∀ j, (((st.ec_slave j).state = EC_STATE_OPERATIONAL ∧ (st.ec_slave j).islost = false)
            ∨ j ∉ l) →
          (l.foldl (fun s slave => recoverSlave bus slave s) st).ec_slave j = st.ec_slave j) := by
  induction l generalizing st with
  | nil =>
    exact ⟨⟨[], (List.append_nil _).symm, by simp⟩, fun _ _ => rfl⟩
  | cons a rest ih =>
    rw [List.foldl_cons]
    obtain ⟨ha, hrest⟩ := List.nodup_cons.mp hnd
    obtain ⟨⟨la, ea, pa⟩, oa, na⟩ := recoverSlave_step bus a st
    obtain ⟨⟨lr, er, pr⟩, ur⟩ := ih hrest (recoverSlave bus a st)
    refine ⟨⟨la ++ lr, ?_, ?_⟩, ?_⟩
    · rw [er, ea, List.append_assoc]
    · intro c hc
      rcases List.mem_append.mp hc with hc | hc
      · exact ⟨a, List.mem_cons_self a rest, (pa c hc).1, (pa c hc).2⟩
      · obtain ⟨j, hj, hs, hd⟩ := pr c hc
        have hja : j ≠ a := by
          intro e
          exact ha (e ▸ hj)
        rw [oa j hja] at hd
        exact ⟨j, List.mem_cons_of_mem a hj, hs, hd⟩
    · intro j hj
      by_cases hja : j = a
      · subst hja
        rw [ur j (Or.inr ha)]
        rcases hj with hj | hj
        · rw [na hj.1 hj.2]
        · exact absurd (List.mem_cons_self j rest) hj
      · have hstep := oa j hja
        rw [← hstep]
        apply ur
        rcases hj with hj | hj
        · left
          rw [hstep]
          exact hj
        · right
          intro hmem
          exact hj (List.mem_cons_of_mem a hmem)

/-! ## `init`: slave count mismatch -/

/-- C1: for every expected slave count `n` and every discovered slave count
`m > 0` (a C `int`) with `n ≠ m`, `init` on an interface that is not
initialized returns `false`, `isInit` is `false` afterwards, the cyclic thread
is not started and the only calls issued are `ec_init` and, when the interface
opened, `ec_config_init`: no device is configured. -/
theorem init_slave_count_mismatch (bus : Bus) (st : State) (m : Int)
    (hinit : isInit st = false) (hm : bus.ec_config_init = m) (hpos : 0 < m)
    (hint : m < 2147483648) (hne : (st.num_slaves_ : Int) ≠ m) :
    (init bus st).1 = some false ∧ isInit (init bus st).2 = false
      ∧ (init bus st).2.thread_started = st.thread_started
      ∧ (init bus st).2.calls
          = st.calls ++ (if bus.ec_init then [Call.ec_init, Call.ec_config_init] else [Call.ec_init]) := by
  have hcast : (toUInt m : Int) = m := toUInt_of_pos m hpos hint
  have hne2 : st.num_slaves_ ≠ toUInt m := by
    intro h
    apply hne
    rw [h, hcast]
  have hinit2 : st.is_initialized_ = false := hinit
  cases hb : bus.ec_init <;> simp [init, openAndDiscover, isInit, hinit2, hb, hm, hpos, hne2]

/-- C1 at a concrete input: three slaves expected, two discovered. -/
theorem init_slave_count_mismatch_witness :
    (init (Bus.nominal 2) (State.fresh 3)).1 = some false
      ∧ isInit (init (Bus.nominal 2) (State.fresh 3)).2 = false
      ∧ (init (Bus.nominal 2) (State.fresh 3)).2.thread_started = (State.fresh 3).thread_started
      ∧ (init (Bus.nominal 2) (State.fresh 3)).2.calls
          = (State.fresh 3).calls
            ++ (if (Bus.nominal 2).ec_init then [Call.ec_init, Call.ec_config_init]
                else [Call.ec_init]) :=
  init_slave_count_mismatch (Bus.nominal 2) (State.fresh 3) 2 rfl rfl (by decide) (by decide)
    (by decide)

/-- C2: evaluation of `init` where the claim fails.  With three slaves
expected and two discovered, and with two devices registered and one slave
discovered, `init` returns `false` but the network handle it opened is still
open and `ec_close` was never called. -/
theorem init_early_failure_leaves_socket_open :
    ((init (Bus.nominal 2) (State.fresh 3)).1 = some false
      ∧ (State.fresh 3).socket_open = false
      ∧ (init (Bus.nominal 2) (State.fresh 3)).2.socket_open = true
      ∧ Call.ec_close ∉ (init (Bus.nominal 2) (State.fresh 3)).2.calls)
    ∧ ((init (Bus.nominal 1) (addDevice ⟨2, 1⟩ (addDevice ⟨1, 0⟩ (State.fresh 1)).2).2).1
        = some false
      ∧ (init (Bus.nominal 1)
          (addDevice ⟨2, 1⟩ (addDevice ⟨1, 0⟩ (State.fresh 1)).2).2).2.socket_open = true
      ∧ Call.ec_close ∉ (init (Bus.nominal 1)
          (addDevice ⟨2, 1⟩ (addDevice ⟨1, 0⟩ (State.fresh 1)).2).2).2.calls) := by
  decide

/-! ## `addDevice` -/

/-- C3: `addDevice` on an initialized interface returns `false` and leaves the
whole state, the device registry included, as it was; on an interface that is
not initialized it returns `true`. -/
theorem addDevice_guard (device : CanDevice) (st : State) :
    (isInit st = true →
        (addDevice device st).1 = false ∧ (addDevice device st).2 = st
          ∧ (addDevice device st).2.devices_ = st.devices_)
      ∧ (isInit st = false → (addDevice device st).1 = true) := by
  constructor
  · intro h
    simp [addDevice, h]
  · intro h
    simp [addDevice, h]

/-- C3 at concrete inputs: an interface that is up and a fresh one. -/
theorem addDevice_guard_witness :
    (isInit (State.running 2) = true
        ∧ (addDevice ⟨1, 0⟩ (State.running 2)).1 = false
        ∧ (addDevice ⟨1, 0⟩ (State.running 2)).2 = State.running 2
        ∧ (addDevice ⟨1, 0⟩ (State.running 2)).2.devices_ = (State.running 2).devices_)
      ∧ (isInit (State.fresh 2) = false ∧ (addDevice ⟨1, 0⟩ (State.fresh 2)).1 = true) :=
  ⟨⟨rfl, (addDevice_guard ⟨1, 0⟩ (State.running 2)).1 rfl⟩,
   ⟨rfl, (addDevice_guard ⟨1, 0⟩ (State.fresh 2)).2 rfl⟩⟩

/-! ## `close` -/

/-- C7: from every state `close` leaves `isInit` false and the network handle
closed; it issues the request of the Init state for the whole bus exactly when
the interface was initialized, followed by `ec_close`; and a second `close`
changes nothing but the trace, to which it adds the single call `ec_close`
and no request of the Init state. -/
theorem close_idempotent (st : State) :
    isInit (close st) = false
      ∧ (close st).socket_open = false
      ∧ (close st).calls
          = st.calls ++ (if isInit st then [Call.ec_writestate 0 EC_STATE_INIT, Call.ec_close]
                         else [Call.ec_close])
      ∧ close (close st) = { close st with calls := (close st).calls ++ [Call.ec_close] }
      ∧ (close (close st)).calls.count (Call.ec_writestate 0 EC_STATE_INIT)
          = (close st).calls.count (Call.ec_writestate 0 EC_STATE_INIT) := by
  cases h : st.is_initialized_ <;>
    simp [close, isInit, h, State.call, State.setSlaveState, List.count_append]

/-! ## `sdoRead` and `sdoWrite` -/

/-- C8: for every slave, index, sub-index and value, `sdoRead` and `sdoWrite`
return `true` exactly when the work counter of the SDO transaction is 1. -/
theorem sdo_success_iff_wkc_one (bus : Bus) (slave idx sub : Nat) (fieldsize data : Int) :
    ((sdoRead bus slave idx sub data).1 = true ↔ (bus.ec_SDOread slave idx sub data).1 = 1)
      ∧ (sdoWrite bus slave idx sub fieldsize data = true
          ↔ bus.ec_SDOwrite slave idx sub fieldsize data = 1) := by
  constructor
  · unfold sdoRead
    by_cases h : (bus.ec_SDOread slave idx sub data).1 = 1 <;> simp [h]
  · unfold sdoWrite
    by_cases h : bus.ec_SDOwrite slave idx sub fieldsize data = 1 <;> simp [h]

/-! ## `init`: the outcome of the wait for the Operational state -/

/-- C5: when `init` on an interface that is not initialized, and whose cyclic
thread has not been started before, has passed interface opening, slave
discovery (`m > 0` slaves) and the topology checks, it returns, and it returns
`true` exactly when the bus-wide state after the wait loop is Operational, that
is when one of the 41 attempts finds it so.  When it returns `true` the
interface is initialized and the cyclic thread has been started, once; when it
returns `false` the interface is not initialized, no cyclic thread was started,
and the network handle is closed by one `ec_close`. -/
theorem init_operational_iff (bus : Bus) (st : State) (m : Nat)
    (hinit : isInit st = false) (hthread : st.thread_started = false)
    (hopen : bus.ec_init = true) (hm : bus.ec_config_init = (m : Int))
    (hpos : 0 < m) (hint : m < 2147483648) (hn : st.num_slaves_ = m)
    (hdev : st.devices_.length ≤ m) (hids : ∀ p ∈ st.devices_, p.1 ≤ m) :
    ((init bus st).1 = some true
        ↔ ((stateAfterWait bus st).ec_slave 0).state = EC_STATE_OPERATIONAL)
      ∧ ((init bus st).1 = some false
        ↔ ((stateAfterWait bus st).ec_slave 0).state ≠ EC_STATE_OPERATIONAL)
      ∧ (((stateAfterWait bus st).ec_slave 0).state = EC_STATE_OPERATIONAL
        ↔ ∃ k, k ≤ 40 ∧ bus.op_statecheck k = EC_STATE_OPERATIONAL)
      ∧ ((init bus st).1 = some true →
          isInit (init bus st).2 = true ∧ (init bus st).2.thread_started = true
            ∧ (init bus st).2.calls.count Call.thread_start
                = st.calls.count Call.thread_start + 1)
      ∧ ((init bus st).1 = some false →
          isInit (init bus st).2 = false
            ∧ (init bus st).2.thread_started = st.thread_started
            ∧ (init bus st).2.calls.count Call.thread_start = st.calls.count Call.thread_start
            ∧ (init bus st).2.socket_open = false
            ∧ (init bus st).2.calls.count Call.ec_close = st.calls.count Call.ec_close + 1) := by
  rw [init_of_checks_passed bus st m hinit hopen hm hpos hint hn hdev hids]
  obtain ⟨f1, f2, f3, _⟩ := stateAfterWait_fields bus st
  have hT : (stateAfterWait bus st).thread_started = false := f2.trans hthread
  have c1 : (stateAfterWait bus st).calls.count Call.thread_start
      = st.calls.count Call.thread_start := by
    rw [stateAfterWait_count bus Call.thread_start (by simp) (by simp) (by simp) (by simp)
      (by simp) (by simp)]
    simp
  have c2 : (stateAfterWait bus st).calls.count Call.ec_close = st.calls.count Call.ec_close := by
    rw [stateAfterWait_count bus Call.ec_close (by simp) (by simp) (by simp) (by simp)
      (by simp) (by simp)]
    simp
  refine ⟨?_, ?_, ?_, ?_, ?_⟩
  · rw [finishInit_result_iff, hT]
    simp
  · rw [finishInit_result, hT]
    split_ifs with h <;> simp [h]
  · unfold stateAfterWait
    exact afterWaitLoop_state_iff bus _
  · intro h
    obtain ⟨hop, _⟩ := (finishInit_result_iff bus _).mp h
    unfold finishInit
    rw [if_pos hop, hT]
    simp [isInit, List.count_append, c1]
  · intro h
    have hop : ((stateAfterWait bus st).ec_slave 0).state ≠ EC_STATE_OPERATIONAL := by
      intro hop
      rw [finishInit_result, if_pos hop, hT] at h
      simp at h
    unfold finishInit
    rw [if_neg hop]
    simp [isInit, close, ec_readstate, State.call, List.count_append, c1, c2, f2, hthread]

/-- C5 at a concrete input: one slave expected and found, one device registered
at address 1, the bus Operational at the first attempt. -/
theorem init_operational_iff_witness :
    ((init (Bus.nominal 1) (addDevice ⟨1, 0⟩ (State.fresh 1)).2).1 = some true
        ↔ ((stateAfterWait (Bus.nominal 1) (addDevice ⟨1, 0⟩ (State.fresh 1)).2).ec_slave 0).state
            = EC_STATE_OPERATIONAL)
      ∧ (init (Bus.nominal 1) (addDevice ⟨1, 0⟩ (State.fresh 1)).2).1 = some true :=
  ⟨(init_operational_iff (Bus.nominal 1) (addDevice ⟨1, 0⟩ (State.fresh 1)).2 1 rfl rfl rfl rfl
      (by decide) (by decide) rfl (by decide) (by decide)).1, by decide⟩

/-! ## `init`: the configuration of the devices -/

/-- C4, as the claim states it, fails: with one slave expected and found and one
device registered at address 1 whose `configure()` fails, `init` returns `true`,
the interface is initialized, and process-data mapping and the request of the
Operational state were performed. -/
theorem init_configure_failure_not_aborting :
    (Bus.failingConfigure 1).configure 1 = false
      ∧ Call.configure 1 false
          ∈ (init (Bus.failingConfigure 1) (addDevice ⟨1, 0⟩ (State.fresh 1)).2).2.calls
      ∧ (init (Bus.failingConfigure 1) (addDevice ⟨1, 0⟩ (State.fresh 1)).2).1 = some true
      ∧ isInit (init (Bus.failingConfigure 1) (addDevice ⟨1, 0⟩ (State.fresh 1)).2).2 = true
      ∧ Call.ec_config_map
          ∈ (init (Bus.failingConfigure 1) (addDevice ⟨1, 0⟩ (State.fresh 1)).2).2.calls
      ∧ Call.ec_writestate 0 EC_STATE_OPERATIONAL
          ∈ (init (Bus.failingConfigure 1) (addDevice ⟨1, 0⟩ (State.fresh 1)).2).2.calls := by
  decide

/-- C4, amended: the configuration loop of `init` aborts for a slave id that
exceeds the number of slaves found, not for a configuration that fails.  Once
interface opening, slave discovery and the two count checks have passed: if no
registered slave id exceeds the number of slaves found, `init` calls
`configure()` of every registered device and does not look at the outcome (the
value it returns and `isInit` afterwards are the same for any outcomes `f`),
and process-data mapping and the request of the Operational state are each
performed once; if some registered slave id exceeds the number of slaves
found, `init` returns `false`, `isInit` stays `false`, and neither process-data
mapping nor the request of the Operational state is performed. -/
theorem init_configure_outcome_ignored (bus : Bus) (st : State) (m : Nat) (f : Nat → Bool)
    (hinit : isInit st = false) (hopen : bus.ec_init = true) (hm : bus.ec_config_init = (m : Int))
    (hpos : 0 < m) (hint : m < 2147483648) (hn : st.num_slaves_ = m)
    (hdev : st.devices_.length ≤ m) :
    ((∀ p ∈ st.devices_, p.1 ≤ m) →
        (init { bus with configure := f } st).1 = (init bus st).1
          ∧ isInit (init { bus with configure := f } st).2 = isInit (init bus st).2
          ∧ (∀ p ∈ st.devices_, Call.configure p.1 (bus.configure p.1) ∈ (init bus st).2.calls)
          ∧ (init bus st).2.calls.count Call.ec_config_map
              = st.calls.count Call.ec_config_map + 1
          ∧ (init bus st).2.calls.count (Call.ec_writestate 0 EC_STATE_OPERATIONAL)
              = st.calls.count (Call.ec_writestate 0 EC_STATE_OPERATIONAL) + 1)
      ∧ ((∃ p ∈ st.devices_, m < p.1) →
        (init bus st).1 = some false ∧ isInit (init bus st).2 = false
          ∧ (init bus st).2.calls.count Call.ec_config_map = st.calls.count Call.ec_config_map
          ∧ (init bus st).2.calls.count (Call.ec_writestate 0 EC_STATE_OPERATIONAL)
              = st.calls.count (Call.ec_writestate 0 EC_STATE_OPERATIONAL)) := by
  constructor
  · intro hids
    have e1 := init_of_checks_passed bus st m hinit hopen hm hpos hint hn hdev hids
    have e2 := init_of_checks_passed { bus with configure := f } st m hinit hopen hm hpos hint hn
      hdev hids
    obtain ⟨g1, g2, _⟩ := stateAfterWait_fields bus st
    obtain ⟨g3, g4, _⟩ := stateAfterWait_fields { bus with configure := f } st
    have hop : ((stateAfterWait { bus with configure := f } st).ec_slave 0).state
          = EC_STATE_OPERATIONAL
        ↔ ((stateAfterWait bus st).ec_slave 0).state = EC_STATE_OPERATIONAL := by
      rw [stateAfterWait_state_iff, stateAfterWait_state_iff]
    have hres : (init { bus with configure := f } st).1 = (init bus st).1 := by
      rw [e1, e2, finishInit_result, finishInit_result, g2, g4]
      by_cases h : ((stateAfterWait bus st).ec_slave 0).state = EC_STATE_OPERATIONAL
      · rw [if_pos h, if_pos (hop.mpr h)]
      · rw [if_neg h, if_neg (fun h2 => h (hop.mp h2))]
    refine ⟨hres, ?_, ?_, ?_, ?_⟩
    · unfold isInit
      rw [e1, e2, finishInit_is_initialized _ _ g1, finishInit_is_initialized _ _ g3, ← e1, ← e2,
        hres]
    · intro p hp
      rw [e1, finishInit_calls]
      apply List.mem_append_left
      rw [← List.count_pos_iff]
      have hcast : toUInt (m : Int) = m := by
        have := toUInt_of_pos (m : Int) (by exact_mod_cast hpos) (by exact_mod_cast hint)
        exact_mod_cast this
      have hok : (configureDevices bus st.devices_ (openAndDiscover bus st)).1 = true := by
        rw [configureDevices_ok_iff]
        have hc : (openAndDiscover bus st).ec_slavecount = (m : Int) := by
          simp [openAndDiscover, hm, hpos]
        rw [hc, hcast]
        exact hids
      unfold stateAfterWait
      rw [afterWaitLoop_count bus _ (by simp) (by simp) (by simp) (by simp) (by simp),
        configureDevices_calls bus _ _ hok]
      have hmem : Call.configure p.1 (bus.configure p.1)
          ∈ (openAndDiscover bus st).calls
              ++ st.devices_.map (fun q => Call.configure q.1 (bus.configure q.1)) := by
        apply List.mem_append_right
        exact List.mem_map.mpr ⟨p, hp, rfl⟩
      have := List.count_pos_iff.mpr hmem
      omega
    · rw [e1, finishInit_calls, List.count_append,
        stateAfterWait_count bus _ (by simp) (by simp) (by simp) (by simp) (by simp) (by simp)]
      split_ifs <;> simp
    · rw [e1, finishInit_calls, List.count_append,
        stateAfterWait_count bus _ (by simp) (by simp) (by simp) (by simp) (by simp) (by simp)]
      split_ifs <;> simp [EC_STATE_OPERATIONAL, EC_STATE_SAFE_OP]
  · intro hid
    rw [init_of_address_too_large bus st m hinit hopen hm hpos hint hn hdev hid]
    have hf := configureDevices_frame bus st.devices_ (openAndDiscover bus st)
    have hcalls : (openAndDiscover bus st).calls
        = st.calls ++ [Call.ec_init, Call.ec_config_init] := by
      simp [openAndDiscover]
    refine ⟨rfl, ?_, ?_, ?_⟩
    · have h := congrArg State.is_initialized_ hf
      exact h
    · simp only
      rw [configureDevices_count bus _ (by simp), hcalls]
      simp [List.count_append]
    · simp only
      rw [configureDevices_count bus _ (by simp), hcalls]
      simp [List.count_append]

/-- C4, amended, at concrete inputs: one slave, with a device at address 1 and
configurations that all fail in place of configurations that all succeed, and
with a device at address 2. -/
theorem init_configure_outcome_ignored_witness :
    (init { Bus.nominal 1 with configure := fun _ => false }
          (addDevice ⟨1, 0⟩ (State.fresh 1)).2).1
        = (init (Bus.nominal 1) (addDevice ⟨1, 0⟩ (State.fresh 1)).2).1
      ∧ (init (Bus.nominal 1) (addDevice ⟨2, 0⟩ (State.fresh 1)).2).1 = some false :=
  ⟨((init_configure_outcome_ignored (Bus.nominal 1) (addDevice ⟨1, 0⟩ (State.fresh 1)).2 1
      (fun _ => false) rfl rfl rfl (by decide) (by decide) rfl (by decide)).1 (by decide)).1,
   ((init_configure_outcome_ignored (Bus.nominal 1) (addDevice ⟨2, 0⟩ (State.fresh 1)).2 1
      (fun _ => false) rfl rfl rfl (by decide) (by decide) rfl (by decide)).2 (by decide)).1⟩

/-! ## `init`: the range of the slave addresses -/

/-- C6: evaluation of `init` where the claim fails.  With one slave expected and
found and one device registered at address 0, which is outside `1..1`, `init`
configures the device, returns `true` and marks the interface initialized. -/
theorem init_accepts_address_zero :
    (addDevice ⟨0, 0⟩ (State.fresh 1)).2.devices_ = [(0, ⟨0, 0⟩)]
      ∧ (init (Bus.nominal 1) (addDevice ⟨0, 0⟩ (State.fresh 1)).2).1 = some true
      ∧ isInit (init (Bus.nominal 1) (addDevice ⟨0, 0⟩ (State.fresh 1)).2).2 = true
      ∧ Call.configure 0 true
          ∈ (init (Bus.nominal 1) (addDevice ⟨0, 0⟩ (State.fresh 1)).2).2.calls
      ∧ (init (Bus.nominal 1) (addDevice ⟨2, 0⟩ (State.fresh 1)).2).1 = some false := by
  decide

/-! ## `pdoCycle`: when the recovery path is entered -/

/-- C9: the expected work counter left by a successful `init` is
`2 * outputsWKC + inputsWKC` of group 0, and in an iteration of the cyclic loop
that runs with this expected work counter the recovery path is entered (the
slave states are read, once) exactly when the observed work counter is strictly
lower than it or the check-state flag of the group is set; otherwise the slave
states are not read.  The iteration leaves the expected work counter as it is. -/
theorem pdoCycle_recovery_iff (bus0 bus : Bus) (st0 st : State) (hinit : isInit st0 = false)
    (hres : (init bus0 st0).1 = some true)
    (hexp : st.expected_wkc_ = (init bus0 st0).2.expected_wkc_) :
    (init bus0 st0).2.expected_wkc_
        = 2 * ((init bus0 st0).2.outputsWKC : Int) + ((init bus0 st0).2.inputsWKC : Int)
      ∧ ((pdoCycle bus st).calls.count Call.ec_readstate = st.calls.count Call.ec_readstate + 1
          ↔ (bus.receive_wkc
                < 2 * ((init bus0 st0).2.outputsWKC : Int) + ((init bus0 st0).2.inputsWKC : Int)
              ∨ st.docheckstate = true))
      ∧ ((pdoCycle bus st).calls.count Call.ec_readstate = st.calls.count Call.ec_readstate
          ↔ ¬ (bus.receive_wkc
                < 2 * ((init bus0 st0).2.outputsWKC : Int) + ((init bus0 st0).2.inputsWKC : Int)
              ∨ st.docheckstate = true))
      ∧ (pdoCycle bus st).expected_wkc_ = st.expected_wkc_ := by
  obtain ⟨e1, _, _⟩ := init_true_expected_wkc bus0 st0 hinit hres
  have e2 : (init bus0 st0).2.expected_wkc_
      = 2 * ((init bus0 st0).2.outputsWKC : Int) + ((init bus0 st0).2.inputsWKC : Int) := by
    rw [e1]
    ring
  have x1 : (exchangeProcessData bus st).wkc_ = bus.receive_wkc := rfl
  have x2 : (exchangeProcessData bus st).expected_wkc_ = st.expected_wkc_ := rfl
  have x3 : (exchangeProcessData bus st).docheckstate = st.docheckstate := rfl
  have x4 : (exchangeProcessData bus st).calls.count Call.ec_readstate
      = st.calls.count Call.ec_readstate := by
    simp [exchangeProcessData, List.count_append]
  obtain ⟨r1, r2⟩ := recoveryPass_frame bus (exchangeProcessData bus st)
  refine ⟨e2, ?_, ?_, ?_⟩
  · rw [← e2, ← hexp]
    unfold pdoCycle
    simp only [x1, x2, x3, call_calls]
    split_ifs with h
    · rw [List.count_append, r1, x4]
      simp [h]
    · rw [List.count_append, x4]
      simp [h]
  · rw [← e2, ← hexp]
    unfold pdoCycle
    simp only [x1, x2, x3, call_calls]
    split_ifs with h
    · rw [List.count_append, r1, x4]
      simp [h]
    · rw [List.count_append, x4]
      simp [h]
  · unfold pdoCycle
    simp only [x1, x2, x3, call_expected_wkc]
    split_ifs with h
    · rw [r2, x2]
    · exact x2

/-- C9 at a concrete input: the state a successful `init` leaves, and an
iteration that observes the expected work counter 3. -/
theorem pdoCycle_recovery_iff_witness :
    (init (Bus.nominal 1) (State.fresh 1)).2.expected_wkc_ = 3
      ∧ (pdoCycle (Bus.nominal 1) (init (Bus.nominal 1) (State.fresh 1)).2).expected_wkc_
          = (init (Bus.nominal 1) (State.fresh 1)).2.expected_wkc_ :=
  ⟨by decide,
   (pdoCycle_recovery_iff (Bus.nominal 1) (Bus.nominal 1) (State.fresh 1)
      (init (Bus.nominal 1) (State.fresh 1)).2 rfl (by decide) rfl).2.2.2⟩

/-! ## `pdoCycle`: the action on a slave that is not Operational -/

/-- C10: in a recovery pass, for a slave of the current group whose state is not
Operational, exactly the first matching action is taken, as the single call the
step adds to the trace shows.  Safe-Operational+Error: Safe-Operational+Ack is
requested.  Safe-Operational: Operational is requested.  Any other state
greater than None: one reconfiguration is attempted, and the lost flag is
cleared when it succeeds and kept when it fails.  None and not marked lost: the
state is checked again and the slave is marked lost exactly when the state is
still None.  (None and marked lost: no call is issued.) -/
theorem checkSlave_first_matching_action (bus : Bus) (slave : Nat) (st : State)
    (hgroup : (st.ec_slave slave).group = currentgroup)
    (hstate : (st.ec_slave slave).state ≠ EC_STATE_OPERATIONAL) :
    ((st.ec_slave slave).state = EC_STATE_SAFE_OP + EC_STATE_ERROR →
        (checkSlave bus slave st).calls
            = st.calls ++ [Call.ec_writestate slave (EC_STATE_SAFE_OP + EC_STATE_ACK)]
          ∧ ((checkSlave bus slave st).ec_slave slave).state = EC_STATE_SAFE_OP + EC_STATE_ACK
          ∧ ((checkSlave bus slave st).ec_slave slave).islost = (st.ec_slave slave).islost)
      ∧ ((st.ec_slave slave).state = EC_STATE_SAFE_OP →
        (checkSlave bus slave st).calls
            = st.calls ++ [Call.ec_writestate slave EC_STATE_OPERATIONAL]
          ∧ ((checkSlave bus slave st).ec_slave slave).state = EC_STATE_OPERATIONAL
          ∧ ((checkSlave bus slave st).ec_slave slave).islost = (st.ec_slave slave).islost)
      ∧ ((st.ec_slave slave).state ≠ EC_STATE_SAFE_OP + EC_STATE_ERROR →
          (st.ec_slave slave).state ≠ EC_STATE_SAFE_OP →
          (st.ec_slave slave).state > EC_STATE_NONE →
        (checkSlave bus slave st).calls
            = st.calls ++ [Call.ec_reconfig_slave slave EC_TIMEOUTMON]
          ∧ ((checkSlave bus slave st).ec_slave slave).state = (bus.ec_reconfig_slave slave).2
          ∧ ((checkSlave bus slave st).ec_slave slave).islost
              = (if (bus.ec_reconfig_slave slave).1 ≠ 0 then false
                 else (st.ec_slave slave).islost))
      ∧ ((st.ec_slave slave).state = EC_STATE_NONE → (st.ec_slave slave).islost = false →
        (checkSlave bus slave st).calls
            = st.calls ++ [Call.ec_statecheck slave EC_STATE_OPERATIONAL EC_TIMEOUTRET]
          ∧ ((checkSlave bus slave st).ec_slave slave).state = bus.ec_statecheck slave
          ∧ ((checkSlave bus slave st).ec_slave slave).islost
              = decide (bus.ec_statecheck slave = EC_STATE_NONE))
      ∧ ((st.ec_slave slave).state = EC_STATE_NONE → (st.ec_slave slave).islost = true →
        (checkSlave bus slave st).calls = st.calls
          ∧ (checkSlave bus slave st).ec_slave slave = st.ec_slave slave) := by
  unfold checkSlave
  dsimp only
  rw [if_pos ⟨hgroup, hstate⟩]
  refine ⟨?_, ?_, ?_, ?_, ?_⟩
  · intro h
    rw [if_pos h]
    simp
  · intro h
    have h1 : (st.ec_slave slave).state ≠ EC_STATE_SAFE_OP + EC_STATE_ERROR := by
      rw [h]
      decide
    rw [if_neg h1, if_pos h]
    simp
  · intro h1 h2 h3
    rw [if_neg h1, if_neg h2, if_pos h3]
    split_ifs with h4 <;> simp
  · intro h hl
    have h1 : (st.ec_slave slave).state ≠ EC_STATE_SAFE_OP + EC_STATE_ERROR := by
      rw [h]
      decide
    have h2 : (st.ec_slave slave).state ≠ EC_STATE_SAFE_OP := by
      rw [h]
      decide
    have h3 : ¬ (st.ec_slave slave).state > EC_STATE_NONE := by
      rw [h]
      decide
    rw [if_neg h1, if_neg h2, if_neg h3]
    simp only [hl, Bool.not_false, if_true]
    split_ifs with h4
    · simp at h4
      simp [h4]
    · simp at h4
      simp [h4, hl]
  · intro h hl
    have h1 : (st.ec_slave slave).state ≠ EC_STATE_SAFE_OP + EC_STATE_ERROR := by
      rw [h]
      decide
    have h2 : (st.ec_slave slave).state ≠ EC_STATE_SAFE_OP := by
      rw [h]
      decide
    have h3 : ¬ (st.ec_slave slave).state > EC_STATE_NONE := by
      rw [h]
      decide
    rw [if_neg h1, if_neg h2, if_neg h3]
    simp [hl]

/-- C10 at concrete inputs: one slave in Safe-Operational+Error, in
Safe-Operational, in Pre-Operational, and absent without being marked lost. -/
theorem checkSlave_first_matching_action_witness :
    (checkSlave (Bus.nominal 1) 1 (State.withSlave ⟨20, 0, false, 0⟩)).calls
        = (State.withSlave ⟨20, 0, false, 0⟩).calls
          ++ [Call.ec_writestate 1 (EC_STATE_SAFE_OP + EC_STATE_ACK)]
      ∧ (checkSlave (Bus.nominal 1) 1 (State.withSlave ⟨4, 0, false, 0⟩)).calls
        = (State.withSlave ⟨4, 0, false, 0⟩).calls ++ [Call.ec_writestate 1 EC_STATE_OPERATIONAL]
      ∧ (checkSlave (Bus.nominal 1) 1 (State.withSlave ⟨2, 0, true, 0⟩)).calls
        = (State.withSlave ⟨2, 0, true, 0⟩).calls ++ [Call.ec_reconfig_slave 1 EC_TIMEOUTMON]
      ∧ (checkSlave (Bus.nominal 1) 1 (State.withSlave ⟨0, 0, false, 0⟩)).calls
        = (State.withSlave ⟨0, 0, false, 0⟩).calls
          ++ [Call.ec_statecheck 1 EC_STATE_OPERATIONAL EC_TIMEOUTRET] :=
  ⟨((checkSlave_first_matching_action (Bus.nominal 1) 1 (State.withSlave ⟨20, 0, false, 0⟩) rfl
      (by decide)).1 rfl).1,
   ((checkSlave_first_matching_action (Bus.nominal 1) 1 (State.withSlave ⟨4, 0, false, 0⟩) rfl
      (by decide)).2.1 rfl).1,
   ((checkSlave_first_matching_action (Bus.nominal 1) 1 (State.withSlave ⟨2, 0, true, 0⟩) rfl
      (by decide)).2.2.1 (by decide) (by decide) (by decide)).1,
   ((checkSlave_first_matching_action (Bus.nominal 1) 1 (State.withSlave ⟨0, 0, false, 0⟩) rfl
      (by decide)).2.2.2.1 rfl rfl).1⟩

/-! ## `pdoCycle`: the handling of a slave marked lost -/

/-- C11: in a recovery pass, for a slave whose lost flag is set when its
lost-handling step runs: if its state is None, exactly one recovery is attempted
and the lost flag is cleared exactly when the attempt succeeds; if its state is
anything else, the lost flag is cleared and no call is issued.  The state of
the slave is left as it is. -/
theorem handleLost_recover_or_clear (bus : Bus) (slave : Nat) (st : State)
    (hlost : (st.ec_slave slave).islost = true) :
    ((st.ec_slave slave).state = EC_STATE_NONE →
        (handleLost bus slave st).calls
            = st.calls ++ [Call.ec_recover_slave slave EC_TIMEOUTMON]
          ∧ (((handleLost bus slave st).ec_slave slave).islost = false
              ↔ bus.ec_recover_slave slave ≠ 0))
      ∧ ((st.ec_slave slave).state ≠ EC_STATE_NONE →
        (handleLost bus slave st).calls = st.calls
          ∧ ((handleLost bus slave st).ec_slave slave).islost = false)
      ∧ ((handleLost bus slave st).ec_slave slave).state = (st.ec_slave slave).state := by
  unfold handleLost
  dsimp only
  rw [if_pos hlost]
  refine ⟨?_, ?_, ?_⟩
  · intro h
    rw [if_pos h]
    split_ifs with h2
    · simp [h2]
    · simp [h2, hlost]
  · intro h
    rw [if_neg h]
    simp
  · split_ifs <;> simp

/-- C11 at concrete inputs: a slave marked lost that is absent, and one that
has come back in the Init state. -/
theorem handleLost_recover_or_clear_witness :
    (handleLost (Bus.nominal 1) 1 (State.withSlave ⟨0, 0, true, 0⟩)).calls
        = (State.withSlave ⟨0, 0, true, 0⟩).calls ++ [Call.ec_recover_slave 1 EC_TIMEOUTMON]
      ∧ (handleLost (Bus.nominal 1) 1 (State.withSlave ⟨1, 0, true, 0⟩)).calls
        = (State.withSlave ⟨1, 0, true, 0⟩).calls :=
  ⟨((handleLost_recover_or_clear (Bus.nominal 1) 1 (State.withSlave ⟨0, 0, true, 0⟩) rfl).1
      rfl).1,
   ((handleLost_recover_or_clear (Bus.nominal 1) 1 (State.withSlave ⟨1, 0, true, 0⟩) rfl).2.1
      (by decide)).1⟩

/-! ## `JointPassive`: the reads -/

/-- C13: for a passive joint that is disabled, `readPositionRad`,
`readVelocityRadSec` and `readTorqueNm` each return `false` and set the output
to NaN; for one that is enabled, `readPositionRad` returns `true` and sets the
output to the value of the drive's auxiliary-position read. -/
theorem passive_joint_reads (j : JointPassive) (out : Double) :
    (j.enabled_ = false →
        j.readPositionRad out = (false, Double.quiet_NaN)
          ∧ j.readVelocityRadSec out = (false, Double.quiet_NaN)
          ∧ j.readTorqueNm out = (false, Double.quiet_NaN))
      ∧ (j.enabled_ = true →
        j.readPositionRad out = (true, j.drive_readAuxiliaryPositionRad)) := by
  constructor
  · intro h
    simp [JointPassive.readPositionRad, JointPassive.readVelocityRadSec,
      JointPassive.readTorqueNm, h]
  · intro h
    simp [JointPassive.readPositionRad, h]

/-- C13 at concrete inputs: a disabled and an enabled passive joint. -/
theorem passive_joint_reads_witness :
    JointPassive.readPositionRad ⟨false, Double.bits 7⟩ Double.zero = (false, Double.quiet_NaN)
      ∧ JointPassive.readPositionRad ⟨true, Double.bits 7⟩ Double.zero = (true, Double.bits 7) :=
  ⟨((passive_joint_reads ⟨false, Double.bits 7⟩ Double.zero).1 rfl).1,
   (passive_joint_reads ⟨true, Double.bits 7⟩ Double.zero).2 rfl⟩

/-- C14: evaluation of the reads where the claim fails.  For an enabled passive
joint `readVelocityRadSec` returns `true` and sets the output to `0.0`, a value
that was not read from the drive; `readTorqueNm` returns `false` and NaN, and
so does `readVelocityRadSec` for a disabled joint. -/
theorem passive_joint_velocity_zero_when_enabled :
    JointPassive.readVelocityRadSec ⟨true, Double.bits 7⟩ Double.quiet_NaN = (true, Double.zero)
      ∧ Double.zero ≠ Double.quiet_NaN
      ∧ JointPassive.readTorqueNm ⟨true, Double.bits 7⟩ Double.zero = (false, Double.quiet_NaN)
      ∧ JointPassive.readVelocityRadSec ⟨false, Double.bits 7⟩ Double.zero
          = (false, Double.quiet_NaN) := by
  decide

/-! ## `init`: the bound on the wait for the Operational state -/

/-- C15: for every sequence of answers of the bus, the wait loop of `init`
(counter 40, tested after each pass and then decremented) ends after `n`
attempts, each a send, a receive and a state check, with `1 ≤ n ≤ 41`; no
attempt before the last finds the bus Operational; the loop ends before the
41st attempt only at an attempt that finds the bus Operational; and when no
attempt finds it Operational the loop makes exactly 41 attempts. -/
theorem waitOperational_bounded (bus : Bus) (st : State) :
    ∃ n, 1 ≤ n ∧ n ≤ 41
      ∧ (waitOperational bus 40 0 st).calls = st.calls ++ waitCalls n
      ∧ (∀ j, j + 1 < n → bus.op_statecheck j ≠ EC_STATE_OPERATIONAL)
      ∧ (n = 41 ∨ bus.op_statecheck (n - 1) = EC_STATE_OPERATIONAL)
      ∧ ((∀ j, j ≤ 40 → bus.op_statecheck j ≠ EC_STATE_OPERATIONAL) → n = 41)
      ∧ (∀ k, k ≤ 40 → bus.op_statecheck k = EC_STATE_OPERATIONAL →
          (∀ j, j < k → bus.op_statecheck j ≠ EC_STATE_OPERATIONAL) → n = k + 1) := by
  obtain ⟨n, h1, h2, h3, h4, h5, _⟩ := waitOperational_attempts bus 40 0 st
  simp only [Nat.zero_add] at h4 h5
  refine ⟨n, h1, h2, h3, h4, h5, ?_, ?_⟩
  · intro hnever
    rcases h5 with h5 | h5
    · exact h5
    · exact absurd h5 (hnever (n - 1) (by omega))
  · intro k hk hop hbefore
    by_contra hne
    rcases Nat.lt_or_gt_of_ne hne with hlt | hgt
    · rcases h5 with h5 | h5
      · omega
      · exact hbefore (n - 1) (by omega) h5
    · exact h4 k (by omega) hop

/-- C15 at concrete inputs: a bus that is never Operational, and a bus that is
Operational at the third attempt. -/
theorem waitOperational_bounded_witness :
    (∃ n, n = 41
        ∧ (waitOperational (Bus.operationalAt 1 100) 40 0 (State.fresh 1)).calls
            = (State.fresh 1).calls ++ waitCalls n)
      ∧ (∃ n, n = 3
        ∧ (waitOperational (Bus.operationalAt 1 2) 40 0 (State.fresh 1)).calls
            = (State.fresh 1).calls ++ waitCalls n) := by
  constructor
  · obtain ⟨n, _, _, hc, _, _, hnever, _⟩ :=
      waitOperational_bounded (Bus.operationalAt 1 100) (State.fresh 1)
    refine ⟨n, hnever ?_, hc⟩
    intro j hj
    have hne : j ≠ 100 := by omega
    simp [Bus.operationalAt, hne, EC_STATE_OPERATIONAL, EC_STATE_SAFE_OP]
  · obtain ⟨n, _, _, hc, _, _, _, hfirst⟩ :=
      waitOperational_bounded (Bus.operationalAt 1 2) (State.fresh 1)
    refine ⟨n, hfirst 2 (by omega) (by simp [Bus.operationalAt]) ?_, hc⟩
    intro j hj
    have hne : j ≠ 2 := by omega
    simp [Bus.operationalAt, hne, EC_STATE_OPERATIONAL, EC_STATE_SAFE_OP]

/-! ## `pdoCycle`: the slaves a recovery pass leaves alone -/

/-- C12: in an iteration of the cyclic loop whose work counter is lower than the
expected one, the recovery pass runs (the slave states are read), and every
call it addresses to a slave addresses one that `ec_readstate` found not
Operational or that was marked lost; for every slave that `ec_readstate` found
Operational and that was not marked lost, no call addresses it and its entry in
`ec_slave[]` is as it was, with the state Operational that was read. -/
theorem pdoCycle_untouched (bus : Bus) (st : State)
    (hshort : bus.receive_wkc < st.expected_wkc_) :
    ∃ l, (pdoCycle bus st).calls = st.calls ++ l
      ∧ Call.ec_readstate ∈ l
      ∧ (∀ c ∈ l, ∀ j, Call.slaveOf c = some j →
          bus.readstate j ≠ EC_STATE_OPERATIONAL ∨ (st.ec_slave j).islost = true)
      ∧ (∀ i, bus.readstate i = EC_STATE_OPERATIONAL → (st.ec_slave i).islost = false →
          (∀ c ∈ l, Call.slaveOf c ≠ some i)
            ∧ (pdoCycle bus st).ec_slave i
                = { st.ec_slave i with state := EC_STATE_OPERATIONAL }) := by
  have x1 : (exchangeProcessData bus st).wkc_ = bus.receive_wkc := rfl
  have x2 : (exchangeProcessData bus st).expected_wkc_ = st.expected_wkc_ := rfl
  have hpass : pdoCycle bus st
      = (recoveryPass bus (exchangeProcessData bus st)).call (Call.osal_usleep 5000) := by
    unfold pdoCycle
    dsimp only
    rw [if_pos (Or.inl (by rw [x1, x2]; exact hshort))]
  obtain ⟨⟨lc, ec, pc⟩, uc⟩ := recoverSlaves_acts_on bus
    (List.range' 1
      (ec_readstate bus { exchangeProcessData bus st with docheckstate := false }).ec_slavecount.toNat)
    (List.nodup_range' 1 _)
    (ec_readstate bus { exchangeProcessData bus st with docheckstate := false })
  have hs : ∀ j, (ec_readstate bus
      { exchangeProcessData bus st with docheckstate := false }).ec_slave j
        = { st.ec_slave j with state := bus.readstate j } := fun _ => rfl
  have hcalls : (ec_readstate bus
      { exchangeProcessData bus st with docheckstate := false }).calls
        = st.calls ++ [Call.ec_send_processdata, Call.ec_receive_processdata, Call.ec_readstate] := by
    simp [ec_readstate, exchangeProcessData]
  have hl : ∀ c ∈ [Call.ec_send_processdata, Call.ec_receive_processdata, Call.ec_readstate]
      ++ lc ++ [Call.osal_usleep 5000], ∀ j, Call.slaveOf c = some j →
        bus.readstate j ≠ EC_STATE_OPERATIONAL ∨ (st.ec_slave j).islost = true := by
    intro c hc j hj
    simp only [List.mem_append, List.mem_cons, List.mem_singleton, List.not_mem_nil,
      or_false] at hc
    rcases hc with (hc | hc) | hc
    · rcases hc with hc | hc | hc <;> (rw [hc] at hj; simp [Call.slaveOf] at hj)
    · obtain ⟨k, _, hk, hd⟩ := pc c hc
      rw [hk] at hj
      cases hj
      rw [hs] at hd
      exact hd
    · rw [hc] at hj
      simp [Call.slaveOf] at hj
  refine ⟨[Call.ec_send_processdata, Call.ec_receive_processdata, Call.ec_readstate]
      ++ lc ++ [Call.osal_usleep 5000], ?_, by simp, hl, ?_⟩
  · rw [hpass, call_calls]
    unfold recoveryPass
    dsimp only
    rw [ec, hcalls]
    simp
  · intro i hop hlost
    refine ⟨?_, ?_⟩
    · intro c hc hsl
      rcases hl c hc i hsl with h | h
      · exact h hop
      · rw [hlost] at h
        exact absurd h (by decide)
    · rw [hpass, call_ec_slave]
      unfold recoveryPass
      dsimp only
      rw [uc i (Or.inl (by rw [hs]; exact ⟨hop, hlost⟩)), hs, hop]

/-- C12 at a concrete input: two slaves, the second found in Safe-Operational,
and a work counter of 2 where 3 is expected; the entry of the first slave is
left as it was. -/
theorem pdoCycle_untouched_witness :
    Bus.slaveTwoDegraded.receive_wkc < State.twoSlaves.expected_wkc_
      ∧ (pdoCycle Bus.slaveTwoDegraded State.twoSlaves).ec_slave 1
          = { State.twoSlaves.ec_slave 1 with state := EC_STATE_OPERATIONAL } := by
  refine ⟨by decide, ?_⟩
  obtain ⟨l, _, _, _, h⟩ := pdoCycle_untouched Bus.slaveTwoDegraded State.twoSlaves (by decide)
  exact (h 1 rfl rfl).2

end platform_driver_ethercat
